import Mathlib

/-!
Verification development for the Hoshloop SEO audit engine
(`src/api`): analyzer pipeline, scoring aggregator and orchestrator.

Modelling conventions:
* Python `int` scores are `ℤ`; Python `float` weights and ratios are
  modelled exactly as `ℚ` (double rounding error is not modelled).
* Python dicts with a fixed key set become structures; a key that is read
  with `dict.get(k, default)` but never written anywhere becomes a field
  whose value is the default.
* Python `round` (banker's rounding, ties to even) is `pyRound`.
* `re` patterns are compiled by hand into explicit scanners over `List Char`
  with the same matching semantics on the fixed patterns of the source;
  `\s` is modelled by the ASCII whitespace class.
* `async` collaborator calls (HTTP fetch, the Anthropic provider) are
  modelled as explicit inputs.
-/

/-- Python builtin `round` on an exact rational: round half to even. -/
def pyRound (q : ℚ) : ℤ :=
  if q - ⌊q⌋ < 1/2 then ⌊q⌋
  else if 1/2 < q - ⌊q⌋ then ⌊q⌋ + 1
  else if ⌊q⌋ % 2 = 0 then ⌊q⌋ else ⌊q⌋ + 1

/-- Python ASCII whitespace class, the characters matched by `\s` (and
stripped by `str.strip()` / split on by `str.split()`) for ASCII text. -/
def pyIsSpace (c : Char) : Bool :=
  c = ' ' || c = '\t' || c = '\n' || c = '\r' || c = '\x0b' || c = '\x0c'

/-- Python `str.split()` with no argument: split on whitespace runs,
dropping empty pieces. -/
def pySplit (s : String) : List String :=
  (s.split (fun c => pyIsSpace c)).filter (fun p => p ≠ "")

/-- Python `str.strip()` with no argument (whitespace strip). -/
def pyStrip (s : String) : String :=
  ((s.toList.dropWhile pyIsSpace).reverse.dropWhile pyIsSpace).reverse.asString

/-- Boolean contiguous-sublist test on character lists. -/
def charsInfixOf (needle : List Char) : List Char → Bool
  | [] => needle.isPrefixOf []
  | c :: rest => needle.isPrefixOf (c :: rest) || charsInfixOf needle rest

/-- Python `needle in hay` substring test. -/
def strContains (hay needle : String) : Bool :=
  charsInfixOf needle.toList hay.toList

/-- A word character of the regex `\w` (ASCII fragment). -/
def pyIsWordChar (c : Char) : Bool :=
  c.isAlpha || c.isDigit || c = '_'

/-- Python `re.findall(r"\b\w+\b", text)`: the maximal runs of word
characters. -/
def pyWords (s : String) : List String :=
  (s.split (fun c => !pyIsWordChar c)).filter (fun p => p ≠ "")

/-- Truthiness of an optional string: `None` and `""` are falsy. -/
def optFalsy (o : Option String) : Bool :=
  match o with
  | none => true
  | some s => s = ""

/-- Python `s or ""` on an optional string. -/
def orEmpty (o : Option String) : String :=
  match o with
  | none => ""
  | some s => if s = "" then "" else s

/-- Model of `urllib.parse.urlparse(url)`: the text after the first
`"://"`, if any (scheme-relative part). -/
def pyUrlRest (url : String) : Option (List Char) :=
  let sep := "://".toList
  let rec go (cs : List Char) : Option (List Char) :=
    if sep.isPrefixOf cs then some (cs.drop sep.length)
    else match cs with
      | [] => none
      | _ :: rest => go rest
  go url.toList

/-- Model of `urllib.parse.urlparse(url).netloc` for absolute URLs. -/
def pyUrlNetloc (url : String) : String :=
  match pyUrlRest url with
  | none => ""
  | some rest => (rest.takeWhile (fun c => !(c = '/' || c = '?' || c = '#'))).asString

/-- Model of `urllib.parse.urlparse(url).path` for absolute URLs. -/
def pyUrlPath (url : String) : String :=
  match pyUrlRest url with
  | none => (url.toList.takeWhile (fun c => !(c = '?' || c = '#'))).asString
  | some rest =>
    let afterNet := rest.dropWhile (fun c => !(c = '/' || c = '?' || c = '#'))
    (afterNet.takeWhile (fun c => !(c = '?' || c = '#'))).asString

/-! ## Data model (src/api: parser.py, fetcher.py, analyzer outputs) -/

/-- An issue record, the dict appended by each analyzer's `issue(...)`
closure (`id`, `category`, `severity`, `title`, `description`,
`recommendation`, `impact`). -/
structure Issue where
  id : String
  category : String
  severity : String
  title : String
  description : String
  recommendation : String
  impact : String
  deriving Repr, DecidableEq

/-- An `<img>` entry of the parsed page (src/api/parser.py). -/
structure ImageTag where
  src : String
  alt : Option String := none
  width : Option String := none
  height : Option String := none
  loading : Option String := none
  fetchpriority : Option String := none
  decoding : Option String := none
  deriving Repr, DecidableEq

/-- A link entry of the parsed page (src/api/parser.py). -/
structure LinkTag where
  href : String
  text : String
  rel : List String := []
  nofollow : Bool := false
  deriving Repr, DecidableEq

/-- A `<script src=...>` entry of the parsed page (src/api/parser.py). -/
structure ScriptTag where
  src : String
  async : Bool := false
  defer : Bool := false
  type : Option String := none
  deriving Repr, DecidableEq

/-- The raw `@type` value of a JSON-LD block: a string, a list of
strings, or absent. -/
inductive SchemaType where
  | str (s : String)
  | list (l : List String)
  | absent
  deriving Repr, DecidableEq

/-- A structured-data (JSON-LD) block as consumed by the analyzers: the
fields the analyzers read from the arbitrary JSON mapping.  `isDict`
records whether the decoded block was a JSON object (non-dicts are
skipped by `isinstance(schema, dict)` guards); `keys` is the key set for
`p not in schema` membership tests; `datePublished`, `dateModified` and
`sameAs` record truthiness of those keys. -/
structure SchemaBlock where
  isDict : Bool := true
  context : String := ""
  atType : SchemaType := .absent
  keys : List String := []
  datePublished : Bool := false
  dateModified : Bool := false
  sameAs : Bool := false
  deriving Repr, DecidableEq

/-- The parsed document model: the key set of the dict built by
`parse_html` (src/api/parser.py lines 18-42), together with the three
keys that the GEO analyzer reads with a `.get(key, default)` but that
`parse_html` never writes (`paragraphs`, `lists`, `videos`); for those
the field value is the analyzer-side default. -/
structure ParsedPage where
  title : Option String := none
  meta_description : Option String := none
  meta_robots : Option String := none
  canonical : Option String := none
  viewport : Option String := none
  charset : Option String := none
  language : Option String := none
  h1 : List String := []
  h2 : List String := []
  h3 : List String := []
  h4 : List String := []
  h5 : List String := []
  h6 : List String := []
  images : List ImageTag := []
  linksInternal : List LinkTag := []
  linksExternal : List LinkTag := []
  scripts : List ScriptTag := []
  stylesheets : List String := []
  schema : List SchemaBlock := []
  open_graph : List (String × String) := []
  twitter_card : List (String × String) := []
  word_count : ℕ := 0
  body_text : String := ""
  hreflang : List (String × Option String) := []
  paragraphs : List String := []
  lists_ul : ℕ := 0
  lists_ol : ℕ := 0
  videos : List String := []
  deriving Repr, DecidableEq

/-- The fetch result dict built by `fetch_page` (src/api/fetcher.py).
`html` is modelled as a plain string (the initial `None` as `""`). -/
structure FetchResult where
  url : String := ""
  final_url : String := ""
  status_code : Option ℤ := none
  html : String := ""
  headers : List (String × String) := []
  redirect_chain : List String := []
  robots_txt : Option String := none
  sitemap_xml : Option String := none
  llms_txt : Option String := none
  error : Option String := none
  deriving Repr, DecidableEq

/-- The E-E-A-T provider response fields read by the content analyzer
(`overallScore`, `summary`, `aiContentRisk`, with the `dict.get`
defaults applied). -/
structure EEAT where
  overallScore : ℤ := 50
  summary : String := ""
  aiContentRisk : String := "low"
  deriving Repr, DecidableEq

/-- One simulated query of the AI-query-simulation provider response. -/
structure SimQuery where
  query : String
  citationLikelihood : String
  reason : String
  deriving Repr, DecidableEq

/-- The AI-query-simulation provider response (enrichment only). -/
structure AiSim where
  simulatedQueries : List SimQuery := []
  topChange : String := ""
  aiVisibilityRating : String := ""
  deriving Repr, DecidableEq

/-- The five GEO sub-dimension bucket keys of `sub_scores`
(src/api/analyzers/geo.py lines 114-120). -/
inductive GeoKey where
  | citability
  | structureKey
  | multiModal
  | authority
  | technicalKey
  deriving Repr, DecidableEq

/-- The dict key string of a GEO sub-dimension bucket. -/
def GeoKey.str : GeoKey → String
  | .citability => "citability"
  | .structureKey => "structure"
  | .multiModal => "multiModal"
  | .authority => "authority"
  | .technicalKey => "technical"

/-- The `sub_scores` dict of the GEO analyzer, one score per bucket key. -/
structure SubScores where
  citability : ℤ
  structureScore : ℤ
  multiModal : ℤ
  authority : ℤ
  technicalAccess : ℤ
  deriving Repr, DecidableEq

/-- Read `sub_scores[key]`. -/
def SubScores.get (s : SubScores) : GeoKey → ℤ
  | .citability => s.citability
  | .structureKey => s.structureScore
  | .multiModal => s.multiModal
  | .authority => s.authority
  | .technicalKey => s.technicalAccess

/-- Write `sub_scores[key] = v`. -/
def SubScores.set (s : SubScores) : GeoKey → ℤ → SubScores
  | .citability, v => { s with citability := v }
  | .structureKey, v => { s with structureScore := v }
  | .multiModal, v => { s with multiModal := v }
  | .authority, v => { s with authority := v }
  | .technicalKey, v => { s with technicalAccess := v }

/-- The `competitorComparison` dict of the GEO analyzer. -/
structure CompetitorComparison where
  competitorUrl : String
  yourScore : ℤ
  competitorScore : ℤ
  yourSubScores : SubScores
  competitorSubScores : SubScores
  advantages : List String
  gaps : List String
  competitorIssueCount : ℕ
  deriving Repr, DecidableEq

/-- The `geoDetails` dict of the GEO analyzer. -/
structure GeoDetails where
  subScores : SubScores
  aiCrawlerStatus : List (String × String)
  llmsTxtStatus : String
  citablePassageCount : ℕ
  aiSimulation : Option AiSim
  deriving Repr, DecidableEq

/-- A `CategoryResult` dict: common keys of every analyzer output plus
the category-specific enrichment keys (absent keys are `none`). -/
structure Category where
  name : String
  label : String
  score : ℤ
  weight : ℚ
  issues : List Issue
  summary : String
  eeat : Option EEAT := none
  geoDetails : Option GeoDetails := none
  competitorComparison : Option CompetitorComparison := none
  deriving Repr, DecidableEq

/-- The final `AuditResults` dict.  The error short-circuit of
`run_audit` (src/api/engine.py lines 33-40) builds a dict with only
`error`, `url`, `overallScore`, `categories` and `topFixes`; the
remaining keys are modelled as optional and default to `none` there. -/
structure AuditResult where
  error : Option String := none
  url : String := ""
  overallScore : ℤ := 0
  categories : List Category := []
  topFixes : List Issue := []
  domain : Option String := none
  fetchedAt : Option String := none
  auditDuration : Option ℤ := none
  pageTitle : Option String := none
  metaDescription : Option String := none
  deriving Repr, DecidableEq

/-! ## Score ledger

Every analyzer accumulates deductions through a closure
`score = max(0, score - pts)`.  We model one analyzer run as the list of
triggered deductions, in source order, and the score as a clamped fold. -/

/-- One clamped deduction step of an analyzer's `issue(...)` closure. -/
def clampStep (s : ℤ) (pts : ℤ) : ℤ := max 0 (s - pts)

/-- The running score after a list of deductions, starting from 100. -/
def ledgerScore (ds : List ℤ) : ℤ := ds.foldl clampStep 100

/-- Every intermediate state of a ledger run starting at `s`. -/
def trajectoryFrom (s : ℤ) : List ℤ → List ℤ
  | [] => [s]
  | d :: ds => s :: trajectoryFrom (clampStep s d) ds

/-- Every intermediate state of an analyzer run: the clamped deduction
steps from the starting score 100. -/
def scoreTrajectory (ds : List ℤ) : List ℤ := trajectoryFrom 100 ds

/-- The invariant of one analyzer run: every intermediate score lies in
`[0, 100]` and consecutive scores never increase. -/
def trajectoryOk (ds : List ℤ) : Prop :=
  (∀ s ∈ scoreTrajectory ds, 0 ≤ s ∧ s ≤ 100) ∧
    (scoreTrajectory ds).Chain' (fun a b => b ≤ a)

/-! ## Scoring aggregator (src/api/scorer.py) -/

/-- The rank of a severity string: `SEVERITY_ORDER.get(sev, 3)` with
`SEVERITY_ORDER = {"critical": 0, "high": 1, "medium": 2, "low": 3}`. -/
def sevRank (s : String) : ℕ :=
  if s = "critical" then 0
  else if s = "high" then 1
  else if s = "medium" then 2
  else 3

/-- The weight of the first category whose `name` equals `catName`, or 0
(`next((c["weight"] for c in categories if c["name"] == ...), 0)`). -/
def catWeight (categories : List Category) (catName : String) : ℚ :=
  match categories.find? (fun c => c.name = catName) with
  | some c => c.weight
  | none => 0

/-- The Python sort key of an issue in `build_results`:
`(SEVERITY_ORDER.get(severity, 3), -category_weight)`. -/
def sortKey (categories : List Category) (i : Issue) : ℕ × ℚ :=
  (sevRank i.severity, -(catWeight categories i.category))

/-- Ascending lexicographic order on sort keys. -/
def keyLe (k₁ k₂ : ℕ × ℚ) : Prop :=
  k₁.1 < k₂.1 ∨ (k₁.1 = k₂.1 ∧ k₁.2 ≤ k₂.2)

instance keyLe.dec (k₁ k₂ : ℕ × ℚ) : Decidable (keyLe k₁ k₂) := by
  unfold keyLe; exact inferInstance

/-- The issue comparison used to sort the pooled issues: compare sort
keys.  Python `list.sort(key=...)` is a stable sort by the key; we give
it the (extensionally unique) stable-sort denotation via
`List.insertionSort` with this non-strict relation. -/
def issueLe (categories : List Category) (a b : Issue) : Prop :=
  keyLe (sortKey categories a) (sortKey categories b)

instance issueLe.dec (categories : List Category) (a b : Issue) :
    Decidable (issueLe categories a b) := by
  unfold issueLe; exact inferInstance

/-- Aggregate category results into the final audit output
(`build_results`, src/api/scorer.py).  `fetched_at` stands for the
impure `datetime.utcnow()` timestamp. -/
def build_results (categories : List Category) (url : String)
    (title meta_description : Option String) (duration_ms : ℤ)
    (fetched_at : String) : AuditResult :=
  let total_weight : ℚ := (categories.map Category.weight).sum
  let overall_score : ℤ :=
    if total_weight = 0 then 0
    else pyRound ((categories.map (fun c => (c.score : ℚ) * c.weight)).sum / total_weight)
  let all_issues : List Issue := categories.flatMap Category.issues
  let sorted_issues := List.insertionSort (issueLe categories) all_issues
  let top_fixes := sorted_issues.take 10
  let domain := (pyUrlNetloc url).replace "www." ""
  { overallScore := overall_score
    categories := categories
    topFixes := top_fixes
    url := url
    domain := some domain
    fetchedAt := some fetched_at
    auditDuration := some duration_ms
    pageTitle := title
    metaDescription := meta_description }

/-! ## Ledger lemmas -/

theorem clampStep_nonneg (s p : ℤ) : 0 ≤ clampStep s p := le_max_left 0 _

theorem clampStep_le (s p : ℤ) (hs : 0 ≤ s) (hp : 0 ≤ p) : clampStep s p ≤ s := by
  unfold clampStep
  rcases max_choice 0 (s - p) with h | h <;> omega

theorem clampStep_le_of_le (s p b : ℤ) (hp : 0 ≤ p) (hs : s ≤ b) (hb : 0 ≤ b) :
    clampStep s p ≤ b := by
  unfold clampStep
  rcases max_choice 0 (s - p) with h | h <;> rw [h] <;> omega

/-- Collapse lemma: a clamped fold of non-negative deductions equals the
single clamp of the total deduction. -/
theorem ledger_foldl_eq_clamp :
    ∀ (ds : List ℤ) (start : ℤ), 0 ≤ start → (∀ d ∈ ds, 0 ≤ d) →
      ds.foldl clampStep start = max 0 (start - ds.sum) := by
  intro ds
  induction ds with
  | nil =>
    intro start hs _
    simp [max_eq_right hs]
  | cons d rest ih =>
    intro start hs hnn
    have hrest : ∀ x ∈ rest, 0 ≤ x := fun x hx => hnn x (by simp [hx])
    have hsum : 0 ≤ rest.sum := List.sum_nonneg hrest
    have h1 : (d :: rest).foldl clampStep start = rest.foldl clampStep (clampStep start d) := rfl
    rw [h1, ih (clampStep start d) (clampStep_nonneg _ _) hrest]
    unfold clampStep
    rcases max_choice 0 (start - d) with h | h <;> rw [h] <;>
      · rcases max_choice 0 (start - d) with h2 | h2 <;>
        rcases max_choice 0 (start - d - rest.sum) with h3 | h3 <;>
        rcases max_choice 0 (0 - rest.sum) with h4 | h4 <;>
        simp only [List.sum_cons] <;> omega

theorem trajectoryFrom_ok :
    ∀ (ds : List ℤ) (start : ℤ), 0 ≤ start → start ≤ 100 →
      (∀ d ∈ ds, 0 ≤ d) →
      (∀ s ∈ trajectoryFrom start ds, 0 ≤ s ∧ s ≤ 100) ∧
        (trajectoryFrom start ds).Chain' (fun a b => b ≤ a) := by
  intro ds
  induction ds with
  | nil =>
    intro start h0 h100 _
    constructor
    · intro s hs
      simp only [trajectoryFrom, List.mem_singleton] at hs
      omega
    · simp [trajectoryFrom]
  | cons d rest ih =>
    intro start h0 h100 hnn
    have hd : 0 ≤ d := hnn d (by simp)
    have hrest : ∀ x ∈ rest, 0 ≤ x := fun x hx => hnn x (by simp [hx])
    have hstep0 : 0 ≤ clampStep start d := clampStep_nonneg _ _
    have hstep100 : clampStep start d ≤ 100 := clampStep_le_of_le _ _ _ hd h100 (by norm_num)
    obtain ⟨ihmem, ihchain⟩ := ih (clampStep start d) hstep0 hstep100 hrest
    constructor
    · intro s hs
      simp only [trajectoryFrom, List.mem_cons] at hs
      rcases hs with rfl | hs
      · omega
      · exact ihmem s hs
    · show List.Chain' _ (start :: trajectoryFrom (clampStep start d) rest)
      refine List.Chain'.cons' ihchain ?_
      intro y hy
      have hhead : (trajectoryFrom (clampStep start d) rest).head? =
          some (clampStep start d) := by
        cases rest <;> rfl
      rw [hhead] at hy
      cases hy
      exact clampStep_le _ _ h0 hd

theorem scoreTrajectory_ok (ds : List ℤ) (h : ∀ d ∈ ds, 0 ≤ d) :
    trajectoryOk ds :=
  trajectoryFrom_ok ds 100 (by norm_num) le_rfl h

/-! ## Stable-sort lemmas for the top-fixes ordering -/

theorem keyLe_refl (k : ℕ × ℚ) : keyLe k k := Or.inr ⟨rfl, le_rfl⟩

theorem keyLe_total (k₁ k₂ : ℕ × ℚ) : keyLe k₁ k₂ ∨ keyLe k₂ k₁ := by
  unfold keyLe
  rcases lt_trichotomy k₁.1 k₂.1 with h | h | h
  · exact Or.inl (Or.inl h)
  · rcases le_total k₁.2 k₂.2 with h2 | h2
    · exact Or.inl (Or.inr ⟨h, h2⟩)
    · exact Or.inr (Or.inr ⟨h.symm, h2⟩)
  · exact Or.inr (Or.inl h)

theorem keyLe_trans {k₁ k₂ k₃ : ℕ × ℚ} :
    keyLe k₁ k₂ → keyLe k₂ k₃ → keyLe k₁ k₃ := by
  unfold keyLe
  intro a b
  rcases a with a | ⟨ae, al⟩ <;> rcases b with b | ⟨be, bl⟩
  · exact Or.inl (a.trans b)
  · exact Or.inl (be ▸ a)
  · exact Or.inl (ae ▸ b)
  · exact Or.inr ⟨ae.trans be, al.trans bl⟩

theorem keyLe_of_eq {k₁ k₂ : ℕ × ℚ} (h : k₁ = k₂) : keyLe k₁ k₂ := h ▸ keyLe_refl k₁

/-- Inserting into a list commutes with filtering an equal-key class:
elements skipped over by `orderedInsert` have strictly smaller keys, so
none of them belongs to the inserted element's key class. -/
theorem filter_orderedInsert_key (categories : List Category) (x : Issue)
    (k : ℕ × ℚ) :
    ∀ l : List Issue,
      (List.orderedInsert (issueLe categories) x l).filter
          (fun a => decide (sortKey categories a = k)) =
        if sortKey categories x = k then
          x :: l.filter (fun a => decide (sortKey categories a = k))
        else l.filter (fun a => decide (sortKey categories a = k)) := by
  intro l
  induction l with
  | nil =>
    simp only [List.orderedInsert, List.filter]
    split <;> simp_all
  | cons y ys ih =>
    have hfc : ∀ (a : Issue) (l : List Issue),
        (a :: l).filter (fun i => decide (sortKey categories i = k)) =
          if sortKey categories a = k then
            a :: l.filter (fun i => decide (sortKey categories i = k))
          else l.filter (fun i => decide (sortKey categories i = k)) := by
      intro a l
      by_cases h : sortKey categories a = k <;> simp [List.filter_cons, h]
    by_cases hxy : issueLe categories x y
    · have hins : List.orderedInsert (issueLe categories) x (y :: ys) = x :: y :: ys := by
        simp [List.orderedInsert, hxy]
      simp only [hins, hfc]
    · have hins : List.orderedInsert (issueLe categories) x (y :: ys) =
          y :: List.orderedInsert (issueLe categories) x ys := by
        simp [List.orderedInsert, hxy]
      have hne : sortKey categories y ≠ sortKey categories x := fun he =>
        hxy (keyLe_of_eq he.symm)
      simp only [hins, hfc, ih]
      by_cases hk : sortKey categories x = k
      · have hyk : ¬ sortKey categories y = k := fun hy => hne (hy.trans hk.symm)
        simp [hk, hyk]
      · by_cases hyk : sortKey categories y = k <;> simp [hk, hyk]

/-- Stability of the top-fixes sort: within one equal-key class
(equal severity rank and equal originating-category weight) the sorted
pool preserves the original pooled order. -/
theorem insertionSort_stable_key (categories : List Category) (k : ℕ × ℚ) :
    ∀ l : List Issue,
      (List.insertionSort (issueLe categories) l).filter
          (fun a => decide (sortKey categories a = k)) =
        l.filter (fun a => decide (sortKey categories a = k)) := by
  intro l
  induction l with
  | nil => rfl
  | cons x xs ih =>
    show (List.orderedInsert _ x (List.insertionSort _ xs)).filter _ = _
    rw [filter_orderedInsert_key]
    by_cases hk : sortKey categories x = k
    · simp [List.filter, hk, ih]
    · simp [List.filter, hk, ih]

theorem issueLe_iff (categories : List Category) (a b : Issue) :
    issueLe categories a b ↔
      (sevRank a.severity < sevRank b.severity ∨
        (sevRank a.severity = sevRank b.severity ∧
          catWeight categories b.category ≤ catWeight categories a.category)) := by
  unfold issueLe keyLe sortKey
  simp only [neg_le_neg_iff]

/-- C1: the aggregated `overallScore` is the weighted mean of the
category scores, rounded to the nearest integer (Python `round`), and 0
when the total weight is 0. -/
theorem overallScore_weighted_mean (categories : List Category) (url : String)
    (title meta_description : Option String) (duration_ms : ℤ) (fetched_at : String) :
    (build_results categories url title meta_description duration_ms fetched_at).overallScore =
      (if (categories.map Category.weight).sum = 0 then 0
       else pyRound ((categories.map (fun c => (c.score : ℚ) * c.weight)).sum /
         (categories.map Category.weight).sum)) := rfl

/-- C2: `topFixes` is the 10-element prefix of the pooled issues under a
stable sort whose primary key is severity rank (critical, high, medium,
low) and whose secondary key is the originating category's weight,
descending; equal-key issues keep their pooled (detection) order. -/
theorem topFixes_sorted_stable (categories : List Category) (url : String)
    (title meta_description : Option String) (duration_ms : ℤ) (fetched_at : String) :
    (build_results categories url title meta_description duration_ms fetched_at).topFixes =
        (List.insertionSort (issueLe categories)
          (categories.flatMap Category.issues)).take 10
    ∧ (build_results categories url title meta_description duration_ms fetched_at).topFixes.length ≤ 10
    ∧ ((List.insertionSort (issueLe categories) (categories.flatMap Category.issues)).take 10)
        ++ ((List.insertionSort (issueLe categories) (categories.flatMap Category.issues)).drop 10)
        = List.insertionSort (issueLe categories) (categories.flatMap Category.issues)
    ∧ (List.insertionSort (issueLe categories) (categories.flatMap Category.issues)).Perm
        (categories.flatMap Category.issues)
    ∧ (List.insertionSort (issueLe categories) (categories.flatMap Category.issues)).Pairwise
        (fun a b => sevRank a.severity < sevRank b.severity ∨
          (sevRank a.severity = sevRank b.severity ∧
            catWeight categories b.category ≤ catWeight categories a.category))
    ∧ ∀ k : ℕ × ℚ,
        (List.insertionSort (issueLe categories) (categories.flatMap Category.issues)).filter
            (fun a => decide (sortKey categories a = k)) =
          (categories.flatMap Category.issues).filter
            (fun a => decide (sortKey categories a = k)) := by
  refine ⟨rfl, ?_, List.take_append_drop _ _, List.perm_insertionSort _ _, ?_, ?_⟩
  · have h : (build_results categories url title meta_description duration_ms
        fetched_at).topFixes =
          (List.insertionSort (issueLe categories)
            (categories.flatMap Category.issues)).take 10 := rfl
    rw [h, List.length_take]
    exact min_le_left _ _
  · haveI : IsTotal Issue (issueLe categories) :=
      ⟨fun a b => keyLe_total (sortKey categories a) (sortKey categories b)⟩
    haveI : IsTrans Issue (issueLe categories) :=
      ⟨fun _ _ _ h₁ h₂ => keyLe_trans h₁ h₂⟩
    have hs := List.sorted_insertionSort (issueLe categories)
      (categories.flatMap Category.issues)
    exact List.Pairwise.imp (fun h => (issueLe_iff categories _ _).mp h) hs
  · intro k
    exact insertionSort_stable_key categories k _

/-! ## Technical SEO analyzer (src/api/analyzers/technical.py) -/

/-- The `SECURITY_HEADERS` roster: header name, points, severity. -/
def SECURITY_HEADERS : List (String × ℤ × String) :=
  [("content-security-policy", 2, "low"),
   ("strict-transport-security", 3, "medium"),
   ("x-frame-options", 2, "low"),
   ("x-content-type-options", 2, "low"),
   ("referrer-policy", 2, "low")]

/-- The `AI_CRAWLERS` dict of the technical analyzer: crawler, vendor. -/
def techAiCrawlers : List (String × String) :=
  [("GPTBot", "OpenAI"), ("ClaudeBot", "Anthropic"),
   ("PerplexityBot", "Perplexity"), ("Google-Extended", "Google AI")]

/-- One `issue(...)` call of the technical analyzer. -/
def techIssue (id sev title desc rec impact : String) (pts : ℤ) : Issue × ℤ :=
  (⟨id, "technical", sev, title, desc, rec, impact⟩, pts)

/-- The triggered deductions of one technical-analyzer run, in source
order: each element is the recorded issue and the points subtracted by
the `issue(...)` closure. -/
def technicalEvents (parsed : ParsedPage) (fetch_result : FetchResult) :
    List (Issue × ℤ) :=
  let titleLen := (parsed.title.getD "").length
  let descLen := (parsed.meta_description.getD "").length
  (if optFalsy parsed.title then
    [techIssue "tech-no-title" "critical" "Missing title tag"
      "No <title> tag found." "Add a descriptive title tag (30-60 chars)."
      "Major ranking factor" 15]
   else if titleLen < 30 then
    [techIssue "tech-short-title" "high" "Title tag too short"
      s!"Title is {titleLen} chars (min 30)."
      "Expand title to 30-60 characters." "Reduced CTR" 8]
   else if titleLen > 60 then
    [techIssue "tech-long-title" "medium" "Title tag too long"
      s!"Title is {titleLen} chars (max 60). Google will truncate."
      "Shorten to under 60 characters." "Truncated in SERPs" 5]
   else [])
  ++
  (if optFalsy parsed.meta_description then
    [techIssue "tech-no-meta-desc" "high" "Missing meta description"
      "No meta description found."
      "Add a compelling meta description (120-160 chars)."
      "Lower CTR from search results" 10]
   else if descLen < 120 then
    [techIssue "tech-short-meta-desc" "medium" "Meta description too short"
      s!"Meta description is {descLen} chars (min 120)."
      "Expand to 120-160 characters." "Missed CTR opportunity" 5]
   else if descLen > 160 then
    [techIssue "tech-long-meta-desc" "low" "Meta description too long"
      s!"Meta description is {descLen} chars (max 160)."
      "Shorten to under 160 characters." "Truncated in SERPs" 3]
   else [])
  ++
  (if optFalsy parsed.canonical then
    [techIssue "tech-no-canonical" "high" "Missing canonical tag"
      "No canonical URL specified."
      "Add <link rel=\x27canonical\x27> to prevent duplicate content."
      "Duplicate content risk" 8]
   else [])
  ++
  (if strContains (orEmpty parsed.meta_robots).toLower "noindex" then
    [techIssue "tech-noindex" "critical" "Page blocked from indexing"
      "Meta robots contains \x27noindex\x27."
      "Remove noindex if this page should appear in search."
      "Page invisible to search engines" 20]
   else [])
  ++
  (if optFalsy parsed.viewport then
    [techIssue "tech-no-viewport" "high" "Missing viewport meta tag"
      "No viewport meta tag found."
      "Add <meta name=\x27viewport\x27 content=\x27width=device-width, initial-scale=1\x27>."
      "Mobile usability issues" 10]
   else [])
  ++
  (if fetch_result.final_url.startsWith "http://" then
    [techIssue "tech-no-https" "critical" "Not using HTTPS"
      "Site is served over HTTP."
      "Migrate to HTTPS. It\x27s a confirmed ranking signal."
      "Security + ranking penalty" 15]
   else [])
  ++
  (SECURITY_HEADERS.flatMap (fun h =>
    let headerName := h.1
    if (fetch_result.headers.map (fun kv => kv.1.toLower)).contains headerName then []
    else
      [techIssue s!"tech-no-{headerName}" h.2.2
        s!"Missing {headerName} header"
        s!"The {headerName} security header is not set."
        s!"Add {headerName} header for better security."
        "Security vulnerability" h.2.1]))
  ++
  (if optFalsy fetch_result.robots_txt then
    [techIssue "tech-no-robots" "medium" "Missing robots.txt"
      "No robots.txt file found."
      "Create a robots.txt to guide crawlers."
      "No crawl guidance" 5]
   else [])
  ++
  (if optFalsy fetch_result.sitemap_xml then
    [techIssue "tech-no-sitemap" "medium" "Missing XML sitemap"
      "No sitemap.xml found at the root."
      "Create and submit an XML sitemap."
      "Slower page discovery" 5]
   else [])
  ++
  (let chainLen := fetch_result.redirect_chain.length
   if chainLen > 1 then
    [techIssue "tech-redirect-chain" "medium" "Redirect chain detected"
      s!"{chainLen} redirects before reaching the page."
      "Reduce to a single redirect."
      "Crawl budget waste" 5]
   else [])

/-- The technical analyzer (`analyze`, src/api/analyzers/technical.py):
sequential deductions from 100, plus a purely informational
AI-crawler-blocked issue appended without any deduction. -/
def technical_analyze (parsed : ParsedPage) (fetch_result : FetchResult) : Category :=
  let events := technicalEvents parsed fetch_result
  let score := ledgerScore (events.map Prod.snd)
  let robots_txt := orEmpty fetch_result.robots_txt
  let blocked_crawlers := techAiCrawlers.filterMap (fun co =>
    if strContains robots_txt ("User-agent: " ++ co.1) &&
        strContains robots_txt "Disallow: /" then
      some s!"{co.1} ({co.2})"
    else none)
  let informational : List Issue :=
    if blocked_crawlers.isEmpty then []
    else
      let bl := String.intercalate ", " blocked_crawlers
      [{ id := "tech-ai-crawlers-blocked", category := "technical",
         severity := "low",
         title := "AI crawlers blocked in robots.txt",
         description := s!"Blocked: {bl}",
         recommendation := "Consider allowing AI crawlers for visibility in AI search.",
         impact := "Reduced AI search visibility" }]
  let issues := events.map Prod.fst ++ informational
  let fs := max 0 score
  let n := issues.length
  { name := "technical", label := "Technical SEO", score := fs,
    weight := 0.25, issues := issues,
    summary := s!"Technical SEO score: {fs}/100 with {n} issues found." }

/-! ## On-Page SEO analyzer (src/api/analyzers/onpage.py) -/

/-- One `issue(...)` call of the on-page analyzer. -/
def onpageIssue (id sev title desc rec impact : String) (pts : ℤ) : Issue × ℤ :=
  (⟨id, "onpage", sev, title, desc, rec, impact⟩, pts)

/-- The triggered deductions of one on-page-analyzer run, in source order. -/
def onpageEvents (parsed : ParsedPage) (fetch_result : FetchResult) :
    List (Issue × ℤ) :=
  let h1_count := parsed.h1.length
  (if h1_count = 0 then
    [onpageIssue "onpage-no-h1" "critical" "Missing H1 tag"
      "No H1 heading found on the page."
      "Add a single, descriptive H1 tag."
      "Primary on-page ranking signal" 15]
   else if h1_count > 1 then
    [onpageIssue "onpage-multiple-h1" "medium" "Multiple H1 tags"
      s!"Found {h1_count} H1 tags. Use only one per page."
      "Keep one H1 and convert others to H2."
      "Dilutes heading hierarchy" 6]
   else [])
  ++
  (if !parsed.h3.isEmpty && parsed.h2.isEmpty then
    [onpageIssue "onpage-skip-h2" "medium" "H3 used without H2"
      "H3 headings found but no H2. Heading hierarchy is broken."
      "Add H2 headings before H3." "Poor document structure" 5]
   else [])
  ++
  (if !parsed.h4.isEmpty && parsed.h3.isEmpty then
    [onpageIssue "onpage-skip-h3" "low" "H4 used without H3"
      "Heading levels skipped." "Maintain proper heading hierarchy."
      "Minor structure issue" 3]
   else [])
  ++
  (let n := parsed.linksInternal.length
   if parsed.linksInternal.isEmpty then
    [onpageIssue "onpage-no-internal-links" "high" "No internal links"
      "Page has zero internal links."
      "Add 3-5 internal links to related pages."
      "Poor crawlability and link equity distribution" 10]
   else if n < 3 then
    [onpageIssue "onpage-few-internal-links" "medium" "Few internal links"
      s!"Only {n} internal links (recommended: 3-5)."
      "Add more contextual internal links."
      "Suboptimal link equity" 5]
   else [])
  ++
  (let path := pyUrlPath fetch_result.final_url
   let pathLen := path.length
   (if pathLen > 100 then
     [onpageIssue "onpage-long-url" "low" "URL path too long"
       s!"Path is {pathLen} characters."
       "Use shorter, descriptive URLs." "Hard to share" 3]
    else [])
   ++
   (if path ≠ path.toLower then
     [onpageIssue "onpage-uppercase-url" "low" "URL contains uppercase letters"
       "URLs should be lowercase to avoid duplicate content."
       "Use lowercase URLs." "Duplicate content risk" 2]
    else [])
   ++
   (if strContains path "_" then
     [onpageIssue "onpage-underscore-url" "low" "URL uses underscores"
       "Google treats underscores as word joiners, not separators."
       "Use hyphens (-) instead of underscores (_)."
       "Minor SEO impact" 2]
    else []))
  ++
  (let ogKeys := parsed.open_graph.map Prod.fst
   let missing_og := (["og:title", "og:description", "og:image"]).filter
     (fun kk => !ogKeys.contains kk)
   if !missing_og.isEmpty then
     let mo := String.intercalate ", " missing_og
     [onpageIssue "onpage-missing-og" "medium" "Incomplete Open Graph tags"
       s!"Missing: {mo}."
       "Add all Open Graph tags for proper social sharing."
       "Poor social sharing appearance" 5]
   else [])
  ++
  (if !(parsed.twitter_card.map Prod.fst).contains "twitter:card" then
    [onpageIssue "onpage-no-twitter-card" "low" "Missing Twitter Card"
      "No twitter:card meta tag found."
      "Add <meta name=\x27twitter:card\x27 content=\x27summary_large_image\x27>."
      "Poor X/Twitter sharing" 3]
   else [])
  ++
  (if optFalsy parsed.language then
    [onpageIssue "onpage-no-lang" "medium" "Missing language attribute"
      "No lang attribute on <html> tag."
      "Add lang=\x27en\x27 (or appropriate language) to the <html> tag."
      "Helps search engines determine content language" 4]
   else [])

/-- The on-page analyzer (`analyze`, src/api/analyzers/onpage.py). -/
def onpage_analyze (parsed : ParsedPage) (fetch_result : FetchResult) : Category :=
  let events := onpageEvents parsed fetch_result
  let fs := max 0 (ledgerScore (events.map Prod.snd))
  { name := "onpage", label := "On-Page SEO", score := fs,
    weight := 0.20, issues := events.map Prod.fst,
    summary := s!"On-page score: {fs}/100." }

/-! ## Image Optimization analyzer (src/api/analyzers/images.py) -/

/-- One `issue(...)` call of the images analyzer. -/
def imagesIssue (id sev title desc rec impact : String) (pts : ℤ) : Issue × ℤ :=
  (⟨id, "images", sev, title, desc, rec, impact⟩, pts)

/-- Python `src.rsplit(".", 1)[-1] if "." in src else ""`: the extension
after the last dot. -/
def pyExt (s : String) : String :=
  if s.toList.contains '.' then
    ((s.toList.reverse.takeWhile (fun c => c ≠ '.')).reverse).asString
  else ""

/-- The legacy-format extension set of the images and performance
analyzers. -/
def oldFormats : List String := ["jpg", "jpeg", "png", "gif", "bmp"]

/-- The triggered deductions of one images-analyzer run, in source
order.  When the page has no images the analyzer returns early with a
fixed score of 100 and no issues. -/
def imagesEvents (parsed : ParsedPage) : List (Issue × ℤ) :=
  let images := parsed.images
  if images.isEmpty then []
  else
    let no_alt := images.filter (fun img => optFalsy img.alt)
    let naLen := no_alt.length
    let imLen := images.length
    (if naLen > 3 then
      [imagesIssue "img-no-alt-many" "high" "Many images without alt text"
        s!"{naLen}/{imLen} images missing alt text."
        "Add descriptive alt text to all non-decorative images."
        "Accessibility + image search ranking" (min 20 ((naLen : ℤ) * 4))]
     else if !no_alt.isEmpty then
      [imagesIssue "img-no-alt-some" "medium" "Some images without alt text"
        s!"{naLen} images missing alt text."
        "Add alt text describing each image."
        "Accessibility issue" (min 12 ((naLen : ℤ) * 4))]
     else [])
    ++
    (match images.find? (fun img =>
        let a := orEmpty img.alt
        a ≠ "" && a.length < 10) with
     | some img =>
       let a := orEmpty img.alt
       [imagesIssue "img-short-alt" "low" "Very short alt text"
         s!"Alt text \x27{a}\x27 is too brief."
         "Use 10-125 character descriptive alt text."
         "Weak image SEO signal" 5]
     | none => [])
    ++
    (let old_format_count :=
      (images.filter (fun img => oldFormats.contains (pyExt img.src.toLower))).length
     if ((old_format_count : ℚ) / (imLen : ℚ)) > 1/2 then
      [imagesIssue "img-old-formats" "medium" "Legacy image formats"
        s!"{old_format_count}/{imLen} images use JPEG/PNG."
        "Convert to WebP or AVIF for better compression."
        "Slower page load"
        (min 10 (pyRound ((old_format_count : ℚ) / (imLen : ℚ) * 10)))]
     else [])
    ++
    (let no_dims := images.filter (fun img =>
      optFalsy img.width || optFalsy img.height)
     let ndLen := no_dims.length
     if ndLen > 5 then
      [imagesIssue "img-no-dims-many" "high" "Images without dimensions"
        s!"{ndLen} images missing width/height."
        "Add width and height attributes."
        "Causes Cumulative Layout Shift" (min 15 ((ndLen : ℤ) * 2))]
     else if !no_dims.isEmpty then
      [imagesIssue "img-no-dims-some" "medium" "Some images lack dimensions"
        s!"{ndLen} images without dimensions."
        "Add width/height to prevent layout shifts."
        "Contributes to CLS" (min 6 ((ndLen : ℤ) * 2))]
     else [])
    ++
    (let non_lazy := (images.drop 1).filter (fun img => img.loading ≠ some "lazy")
     let nlLen := non_lazy.length
     if nlLen > 3 then
      [imagesIssue "img-no-lazy" "medium" "Images not lazy loaded"
        s!"{nlLen} below-fold images without loading=\x27lazy\x27."
        "Add loading=\x27lazy\x27 to images below the fold."
        "Wasted bandwidth on initial load" (min 10 (pyRound ((nlLen : ℚ) / 2)))]
     else [])
    ++
    (match images.head? with
     | none => []
     | some first =>
       (if first.fetchpriority ≠ some "high" && !(first.loading = some "lazy") then
         [imagesIssue "img-hero-no-priority" "low" "Hero image not prioritized"
           "First image doesn\x27t have fetchpriority=\x27high\x27."
           "Add fetchpriority=\x27high\x27 to the hero/LCP image."
           "Slower LCP" 3]
        else [])
       ++
       (if first.loading = some "lazy" then
         [imagesIssue "img-hero-lazy" "high" "Hero image is lazy loaded"
           "The first image has loading=\x27lazy\x27 which delays LCP."
           "Remove loading=\x27lazy\x27 from the hero image."
           "Directly harms Largest Contentful Paint" 10]
        else []))

/-- The images analyzer (`analyze`, src/api/analyzers/images.py). -/
def images_analyze (parsed : ParsedPage) (fetch_result : FetchResult) : Category :=
  let images := parsed.images
  if images.isEmpty then
    { name := "images", label := "Image Optimization", score := 100,
      weight := 0.05, issues := [],
      summary := "No images found on page. Score: 100/100." }
  else
    let events := imagesEvents parsed
    let fs := max 0 (ledgerScore (events.map Prod.snd))
    let n := images.length
    { name := "images", label := "Image Optimization", score := fs,
      weight := 0.05, issues := events.map Prod.fst,
      summary := s!"Image score: {fs}/100. {n} images analyzed." }

/-! ## Performance analyzer (src/api/analyzers/performance.py) -/

/-- One `issue(...)` call of the performance analyzer. -/
def perfIssue (id sev title desc rec impact : String) (pts : ℤ) : Issue × ℤ :=
  (⟨id, "performance", sev, title, desc, rec, impact⟩, pts)

/-- The triggered deductions of one performance-analyzer run, in source
order. -/
def performanceEvents (parsed : ParsedPage) (fetch_result : FetchResult) :
    List (Issue × ℤ) :=
  let scripts := parsed.scripts
  let stylesheets := parsed.stylesheets
  let images := parsed.images
  let headings_count := parsed.h1.length + parsed.h2.length + parsed.h3.length
    + parsed.h4.length + parsed.h5.length + parsed.h6.length
  let blocking := scripts.filter (fun s => !s.async && !s.defer)
  let blLen := blocking.length
  (if blLen > 3 then
    [perfIssue "perf-blocking-scripts" "high" "Many render-blocking scripts"
      s!"{blLen} scripts without async/defer."
      "Add async or defer to non-critical scripts."
      "Delays Largest Contentful Paint" (min 15 ((blLen : ℤ) * 3))]
   else if !blocking.isEmpty then
    [perfIssue "perf-some-blocking" "medium" "Render-blocking scripts found"
      s!"{blLen} scripts block rendering."
      "Add async or defer attributes."
      "Slows initial page load" (min 9 ((blLen : ℤ) * 3))]
   else [])
  ++
  (let ssLen := stylesheets.length
   if ssLen > 5 then
    [perfIssue "perf-many-css" "medium" "Many external stylesheets"
      s!"{ssLen} external CSS files."
      "Combine stylesheets or use critical CSS inlining."
      "Increases render-blocking time" 5]
   else [])
  ++
  (let dom_estimate := images.length + parsed.linksInternal.length
     + parsed.linksExternal.length + headings_count + scripts.length
   if dom_estimate > 800 then
    [perfIssue "perf-large-dom" "medium" "Large DOM size detected"
      s!"Estimated {dom_estimate}+ elements. Large DOMs slow INP."
      "Simplify page structure. Target under 800 key elements."
      "Poor Interaction to Next Paint (INP)" 8]
   else [])
  ++
  (if !images.isEmpty then
    let old_format_count :=
      (images.filter (fun img => oldFormats.contains (pyExt img.src.toLower))).length
    let imLen := images.length
    let pct : ℚ := (old_format_count : ℚ) / (imLen : ℚ) * 100
    if pct > 50 then
      [perfIssue "perf-old-image-formats" "medium" "Legacy image formats"
        s!"{old_format_count}/{imLen} images use JPEG/PNG."
        "Convert to WebP or AVIF for 30-50% smaller files."
        "Slower page load" 8]
    else []
   else [])
  ++
  (match stylesheets.find? (fun sheet =>
      let sl := sheet.toLower
      strContains sl "fonts.googleapis" || strContains sl "typekit" ||
        strContains sl "use.fontawesome") with
   | some _ =>
     [perfIssue "perf-web-fonts" "low" "External web fonts detected"
       "Web fonts add latency."
       "Use font-display: swap and preload critical fonts."
       "Flash of invisible text" 2]
   | none => [])
  ++
  (let no_dimensions := images.filter (fun img =>
    optFalsy img.width || optFalsy img.height)
   let ndLen := no_dimensions.length
   if ndLen > 5 then
    [perfIssue "perf-no-img-dimensions" "high" "Images without dimensions"
      s!"{ndLen} images missing width/height."
      "Add width and height attributes to all images."
      "#1 cause of CLS (Cumulative Layout Shift)" (min 12 ((ndLen : ℤ) * 2))]
   else if !no_dimensions.isEmpty then
    [perfIssue "perf-some-no-dimensions" "medium" "Some images lack dimensions"
      s!"{ndLen} images without width/height."
      "Add explicit dimensions to prevent layout shifts."
      "Contributes to CLS" (min 6 ((ndLen : ℤ) * 2))]
   else [])
  ++
  (let headersLower := fetch_result.headers.map (fun kv => kv.1.toLower)
   let cdn_headers := ["cf-ray", "x-cache", "x-cdn", "x-served-by", "x-amz-cf-id"]
   if !cdn_headers.any (fun h => headersLower.contains h) then
    [perfIssue "perf-no-cdn" "low" "No CDN detected"
      "No CDN headers found."
      "Use a CDN (Cloudflare, CloudFront, Fastly) for faster delivery."
      "Slower load times for distant users" 3]
   else [])

/-- The performance analyzer (`analyze`, src/api/analyzers/performance.py). -/
def performance_analyze (parsed : ParsedPage) (fetch_result : FetchResult) : Category :=
  let events := performanceEvents parsed fetch_result
  let fs := max 0 (ledgerScore (events.map Prod.snd))
  { name := "performance", label := "Performance", score := fs,
    weight := 0.10, issues := events.map Prod.fst,
    summary := s!"Performance score: {fs}/100." }

/-! ## Schema & Structured Data analyzer (src/api/analyzers/schema_analyzer.py) -/

/-- `DEPRECATED_TYPES`: type, deprecation date. -/
def DEPRECATED_TYPES : List (String × String) :=
  [("HowTo", "September 2023"),
   ("SpecialAnnouncement", "July 2025"),
   ("CourseInfo", "June 2025"),
   ("EstimatedSalary", "June 2025"),
   ("LearningVideo", "June 2025"),
   ("ClaimReview", "June 2025"),
   ("VehicleListing", "June 2025"),
   ("Dataset", "Late 2025")]

/-- `RESTRICTED_TYPES`: type, restriction note. -/
def RESTRICTED_TYPES : List (String × String) :=
  [("FAQPage", "Government and healthcare authority sites only (Aug 2023)")]

/-- `REQUIRED_PROPS`: type, required property names. -/
def REQUIRED_PROPS : List (String × List String) :=
  [("Organization", ["name", "url"]),
   ("LocalBusiness", ["name", "address"]),
   ("Product", ["name"]),
   ("Article", ["headline", "author", "datePublished"]),
   ("BlogPosting", ["headline", "author", "datePublished"]),
   ("NewsArticle", ["headline", "author", "datePublished"]),
   ("WebSite", ["name", "url"]),
   ("BreadcrumbList", ["itemListElement"]),
   ("VideoObject", ["name", "uploadDate"]),
   ("Event", ["name", "startDate"])]

/-- `_get_type(schema)`: the `@type`, or the first element of a list
`@type`. -/
def _get_type : SchemaType → Option String
  | .str s => some s
  | .list l => l.head?
  | .absent => none

/-- The `@type` of a block when truthy (non-`None`, non-empty). -/
def schemaTypeOf (s : SchemaBlock) : Option String :=
  match _get_type s.atType with
  | some ty => if ty = "" then none else some ty
  | none => none

/-- One `issue(...)` call of the schema analyzer. -/
def schemaIssue (id sev title desc rec impact : String) (pts : ℤ) : Issue × ℤ :=
  (⟨id, "schema", sev, title, desc, rec, impact⟩, pts)

/-- The `found_types` set of one schema-analyzer run, as the
deduplicated list of truthy types in block order (a Python `set`; only
membership and emptiness of intersections are meaningful). -/
def schemaFoundTypes (schemas : List SchemaBlock) : List String :=
  ((schemas.filter (fun s => s.isDict)).filterMap schemaTypeOf).eraseDups

/-- The triggered deductions of one schema-analyzer run, in source
order.  An empty block list triggers the single `schema-none` issue and
returns early. -/
def schemaEvents (parsed : ParsedPage) : List (Issue × ℤ) :=
  let schemas := parsed.schema
  if schemas.isEmpty then
    [schemaIssue "schema-none" "high" "No structured data found"
      "No JSON-LD schema markup detected."
      "Add JSON-LD schema (Organization, WebSite, BreadcrumbList at minimum). Pages with schema have ~2.5x higher chance in AI answers."
      "Missing rich results + AI visibility" 25]
  else
    (schemas.flatMap (fun s =>
      if !s.isDict then []
      else
        (if s.context = "" then
          [schemaIssue "schema-no-context" "high" "Schema missing @context"
            "JSON-LD block has no @context property."
            "Add \x27@context\x27: \x27https://schema.org\x27." "Invalid schema" 8]
         else if strContains s.context "http://schema.org" &&
             !strContains s.context "https" then
          [schemaIssue "schema-http-context" "medium" "Schema uses http:// context"
            "Use https://schema.org instead of http://."
            "Change @context to \x27https://schema.org\x27."
            "May cause validation warnings" 3]
         else [])
        ++
        (match schemaTypeOf s with
         | none => []
         | some ty =>
           let tyLower := ty.toLower
           (match DEPRECATED_TYPES.find? (fun d => d.1 = ty) with
            | some d =>
              let date := d.2
              [schemaIssue s!"schema-deprecated-{tyLower}" "high"
                s!"Deprecated schema type: {ty}"
                s!"{ty} was deprecated in {date}."
                s!"Remove {ty} schema — Google no longer supports it."
                "No rich results, wasted markup" 10]
            | none => [])
           ++
           (match RESTRICTED_TYPES.find? (fun d => d.1 = ty) with
            | some d =>
              let note := d.2
              [schemaIssue s!"schema-restricted-{tyLower}" "medium"
                s!"Restricted schema type: {ty}"
                s!"{note}."
                s!"Only use {ty} if your site qualifies."
                "May not generate rich results" 5]
            | none => [])
           ++
           (match REQUIRED_PROPS.find? (fun d => d.1 = ty) with
            | some d =>
              let missing := d.2.filter (fun p => !s.keys.contains p)
              if !missing.isEmpty then
                let ms := String.intercalate ", " missing
                [schemaIssue s!"schema-missing-props-{tyLower}" "medium"
                  s!"{ty} missing required properties"
                  s!"Missing: {ms}."
                  s!"Add {ms} to your {ty} schema."
                  "Incomplete rich results" 5]
              else []
            | none => []))))
    ++
    (let found := schemaFoundTypes schemas
     (if !found.contains "Organization" && !found.contains "LocalBusiness" then
       [schemaIssue "schema-no-org" "medium" "No Organization/LocalBusiness schema"
         "Missing organizational identity schema."
         "Add Organization or LocalBusiness schema."
         "Missing brand knowledge panel" 5]
      else [])
     ++
     (if !found.contains "BreadcrumbList" then
       [schemaIssue "schema-no-breadcrumb" "low" "No BreadcrumbList schema"
         "Breadcrumb navigation not marked up."
         "Add BreadcrumbList schema for better SERP display."
         "Missing breadcrumb rich results" 3]
      else [])
     ++
     (if !found.contains "WebSite" then
       [schemaIssue "schema-no-website" "low" "No WebSite schema"
         "Missing WebSite schema with search action."
         "Add WebSite schema for sitelinks searchbox."
         "Missing sitelinks searchbox" 3]
      else []))

/-- All score deductions of one schema-analyzer run: the issue-recording
deductions plus the final silent Open-Graph deduction
(`score = max(0, score - 5)` with no issue, skipped on the empty-schema
early return). -/
def schemaDeductions (parsed : ParsedPage) : List ℤ :=
  (schemaEvents parsed).map Prod.snd ++
    (if parsed.schema.isEmpty then []
     else if parsed.open_graph.isEmpty then [5] else [])

/-- The schema analyzer (`analyze`, src/api/analyzers/schema_analyzer.py). -/
def schema_analyze (parsed : ParsedPage) (fetch_result : FetchResult) : Category :=
  let events := schemaEvents parsed
  let issues := events.map Prod.fst
  let fs := max 0 (ledgerScore (schemaDeductions parsed))
  if parsed.schema.isEmpty then
    { name := "schema", label := "Schema & Structured Data", score := fs,
      weight := 0.10, issues := issues,
      summary := s!"Schema score: {fs}/100. No structured data found." }
  else
    let n := parsed.schema.length
    let tj := String.intercalate ", " (schemaFoundTypes parsed.schema)
    let types := if tj = "" then "none" else tj
    { name := "schema", label := "Schema & Structured Data", score := fs,
      weight := 0.10, issues := issues,
      summary := s!"Schema score: {fs}/100. Found {n} schema blocks ({types})." }

/-! ## Content Quality analyzer (src/api/analyzers/content.py) -/

/-- A vowel of the syllable heuristic. -/
def isVowelChar (c : Char) : Bool :=
  c = 'a' || c = 'e' || c = 'i' || c = 'o' || c = 'u' || c = 'y'

/-- Vowel-group starts after the first character: one count per
non-vowel-to-vowel transition. -/
def sylTransitions : Char → List Char → ℤ
  | _, [] => 0
  | prev, c :: rest =>
    (if isVowelChar c && !isVowelChar prev then 1 else 0) + sylTransitions c rest

/-- The per-word syllable estimate of `_flesch_reading_ease`: vowel
groups, minus a final silent `e`, with a floor of 1. -/
def pySyllables (w : String) : ℤ :=
  match w.toLower.toList with
  | [] => 1
  | c0 :: rest =>
    let base : ℤ := if isVowelChar c0 then 1 else 0
    let count := base + sylTransitions c0 rest
    let count := if (c0 :: rest).getLast? = some 'e' then count - 1 else count
    if count = 0 then 1 else count

/-- `_flesch_reading_ease(text)` (src/api/analyzers/content.py). -/
def _flesch_reading_ease (text : String) : ℚ :=
  let sentences := ((text.split (fun c => c = '.' || c = '!' || c = '?')).map
    pyStrip).filter (fun s => s ≠ "")
  let words := pyWords text
  if sentences.isEmpty || words.isEmpty then 60
  else
    let syllable_count : ℤ := (words.map pySyllables).sum
    let avg_sentence_length : ℚ := (words.length : ℚ) / (sentences.length : ℚ)
    let avg_syllables_per_word : ℚ := (syllable_count : ℚ) / (words.length : ℚ)
    let score : ℚ := 206.835 - 1.015 * avg_sentence_length - 84.6 * avg_syllables_per_word
    max 0 (min 100 score)

/-- One `issue(...)` call of the content analyzer. -/
def contentIssue (id sev title desc rec impact : String) (pts : ℤ) : Issue × ℤ :=
  (⟨id, "content", sev, title, desc, rec, impact⟩, pts)

/-- The E-E-A-T data used by one content-analyzer run: the provider is
consulted only when the body text is longer than 100 characters, and its
response (`None` on any failure or missing key) is an explicit input. -/
def contentEeatData (parsed : ParsedPage) (eeatResp : Option EEAT) : Option EEAT :=
  if parsed.body_text ≠ "" && parsed.body_text.length > 100 then eeatResp else none

/-- The triggered deductions of one content-analyzer run, in source
order. -/
def contentEvents (parsed : ParsedPage) (fetch_result : FetchResult)
    (eeatResp : Option EEAT) : List (Issue × ℤ) :=
  let word_count := parsed.word_count
  (if word_count < 200 then
    [contentIssue "content-thin" "critical" "Thin content"
      s!"Only {word_count} words. Google considers this thin content."
      "Add substantial, valuable content (500+ words recommended)."
      "Major ranking penalty" 20]
   else if word_count < 500 then
    [contentIssue "content-short" "high" "Short content"
      s!"Page has {word_count} words (recommended: 500+)."
      "Expand content with valuable information."
      "Reduced ranking potential" 12]
   else [])
  ++
  (if parsed.body_text ≠ "" then
    let readability := _flesch_reading_ease parsed.body_text
    let rr := pyRound readability
    if readability < 30 then
      [contentIssue "content-hard-read" "medium" "Very difficult to read"
        s!"Flesch score: {rr}/100. Content is hard to understand."
        "Simplify language. Target 60-70 for general audiences."
        "Poor user engagement" 8]
    else if readability < 50 then
      [contentIssue "content-readability" "low" "Readability could improve"
        s!"Flesch score: {rr}/100."
        "Use shorter sentences and simpler words."
        "User engagement" 4]
    else []
   else [])
  ++
  (if parsed.h2.isEmpty && word_count > 300 then
    [contentIssue "content-no-h2" "medium" "No H2 headings"
      "Long content without subheadings."
      "Break content into sections with H2 headings."
      "Poor readability and SEO structure" 6]
   else [])
  ++
  (let has_date := parsed.schema.any (fun s =>
    s.isDict && (s.datePublished || s.dateModified))
   if !has_date && word_count > 500 then
    [contentIssue "content-no-date" "low" "No publication date signals"
      "No datePublished or dateModified found."
      "Add date metadata via schema markup."
      "Content freshness signals missing" 3]
   else [])
  ++
  (match contentEeatData parsed eeatResp with
   | none => []
   | some e =>
     let es := e.overallScore
     let su := e.summary
     (if es < 40 then
       [contentIssue "content-weak-eeat" "high" "Weak E-E-A-T signals"
         s!"E-E-A-T score: {es}/100. {su}"
         "Add author credentials, first-hand experience, citations, and trust signals."
         "Major ranking factor since Dec 2025" 15]
      else if es < 60 then
       [contentIssue "content-moderate-eeat" "medium" "Moderate E-E-A-T signals"
         s!"E-E-A-T score: {es}/100. {su}"
         "Strengthen expertise signals: add author bio, credentials, case studies."
         "Competitive ranking disadvantage" 8]
      else [])
     ++
     (if e.aiContentRisk = "high" then
       [contentIssue "content-ai-risk-high" "high" "High AI-generated content risk"
         "Content shows strong AI-generation patterns."
         "Add personal anecdotes, specific data, and first-hand experience."
         "Google\x27s helpful content system penalizes generic AI content" 12]
      else if e.aiContentRisk = "medium" then
       [contentIssue "content-ai-risk-medium" "medium" "Moderate AI content risk"
         "Some AI-generation patterns detected."
         "Add more specificity and personal expertise signals."
         "Potential ranking impact" 6]
      else []))

/-- The content analyzer (`analyze`, src/api/analyzers/content.py). -/
def content_analyze (parsed : ParsedPage) (fetch_result : FetchResult)
    (eeatResp : Option EEAT) : Category :=
  let events := contentEvents parsed fetch_result eeatResp
  let fs := max 0 (ledgerScore (events.map Prod.snd))
  let wc := parsed.word_count
  { name := "content", label := "Content Quality", score := fs,
    weight := 0.25, issues := events.map Prod.fst,
    summary := s!"Content quality score: {fs}/100. Word count: {wc}.",
    eeat := contentEeatData parsed eeatResp }

/-! ## AI Search (GEO) analyzer (src/api/analyzers/geo.py) -/

/-- The fixed AI-crawler roster `AI_CRAWLERS` of the GEO analyzer. -/
def AI_CRAWLERS : List String :=
  ["GPTBot", "ChatGPT-User", "ClaudeBot", "PerplexityBot",
   "Google-Extended", "Amazonbot", "Meta-ExternalAgent",
   "Bytespider", "Applebot-Extended"]

/-- Match a literal at the head of the text, returning the rest. -/
def dropLit (lit : String) (cs : List Char) : Option (List Char) :=
  if lit.toList.isPrefixOf cs then some (cs.drop lit.toList.length) else none

/-- The regex tail `\s*$` under `re.MULTILINE`: optional whitespace up
to the end of the text or an end of line. -/
def wsThenEol : List Char → Bool
  | [] => true
  | c :: rest =>
    if c = '\n' then true
    else if pyIsSpace c then wsThenEol rest else false

/-- Try a position matcher at every suffix of the text (`re.search`). -/
def scanAll (p : List Char → Bool) : List Char → Bool
  | [] => p []
  | c :: rest => p (c :: rest) || scanAll p rest

/-- The wildcard-block pattern
`User-agent:\s*\*\s*\n\s*Disallow:\s*/\s*$` anchored at one position:
after `User-agent:` and optional whitespace, a `*`, then a whitespace
run containing a newline, then `Disallow:`, optional whitespace, `/`,
and optional whitespace up to an end of line. -/
def wildcardBlockAt (cs : List Char) : Bool :=
  match dropLit "User-agent:" cs with
  | none => false
  | some r1 =>
    match r1.dropWhile pyIsSpace with
    | '*' :: r3 =>
      let run := r3.takeWhile pyIsSpace
      let r4 := r3.dropWhile pyIsSpace
      if run.contains '\n' then
        match dropLit "Disallow:" r4 with
        | none => false
        | some r5 =>
          match r5.dropWhile pyIsSpace with
          | '/' :: r6 => wsThenEol r6
          | _ => false
      else false
    | _ => false

/-- `_check_wildcard_block(robots_txt)`: the robots policy blocks all
agents via a wildcard rule (src/api/analyzers/geo.py lines 37-44). -/
def _check_wildcard_block (robots_txt : String) : Bool :=
  if robots_txt = "" then false
  else scanAll wildcardBlockAt robots_txt.toList

/-- The tail pattern `Disallow:\s*/\s*$` of the per-crawler block rule,
anchored at one position of the lowercased policy. -/
def disallowAt (cs : List Char) : Bool :=
  match dropLit "disallow:" cs with
  | none => false
  | some r =>
    match r.dropWhile pyIsSpace with
    | '/' :: r2 => wsThenEol r2
    | _ => false

/-- The per-crawler pattern `User-agent:\s*{crawler}.*?Disallow:\s*/\s*$`
(`re.IGNORECASE | re.MULTILINE | re.DOTALL`) anchored at one position of
the lowercased policy: the lazy `.*?` under DOTALL means some suffix
after the crawler name matches the disallow tail. -/
def crawlerBlockAt (crawler : List Char) (cs : List Char) : Bool :=
  match dropLit "user-agent:" cs with
  | none => false
  | some r1 =>
    let r2 := r1.dropWhile pyIsSpace
    if crawler.isPrefixOf r2 then scanAll disallowAt (r2.drop crawler.length)
    else false

/-- `_check_crawler_blocked(robots_txt, crawler)`
(src/api/analyzers/geo.py lines 29-34). -/
def _check_crawler_blocked (robots_txt : String) (crawler : String) : Bool :=
  if robots_txt = "" then false
  else scanAll (crawlerBlockAt crawler.toLower.toList) robots_txt.toLower.toList

/-- `_count_citable_passages(paragraphs)`: paragraphs of 50-200 words. -/
def _count_citable_passages (paragraphs : List String) : ℕ :=
  (paragraphs.filter (fun p =>
    let words := (pySplit p).length
    50 ≤ words && words ≤ 200)).length

/-- `_avg_paragraph_words(paragraphs)`. -/
def _avg_paragraph_words (paragraphs : List String) : ℚ :=
  if paragraphs.isEmpty then 0
  else (paragraphs.map (fun p => ((pySplit p).length : ℚ))).sum / (paragraphs.length : ℚ)

/-- One alternative of the statistics pattern
`\d+%|\d+\.\d+|\$\d+|[\d,]+\s*(users|customers|companies|revenue|growth)`
anchored at one position. -/
def statAt (cs : List Char) : Bool :=
  (let ds := cs.takeWhile Char.isDigit
   decide (ds ≠ []) && ((cs.drop ds.length).head? = some '%'))
  ||
  (let ds := cs.takeWhile Char.isDigit
   decide (ds ≠ []) &&
     (match cs.drop ds.length with
      | '.' :: r => decide (r.takeWhile Char.isDigit ≠ [])
      | _ => false))
  ||
  (match cs with
   | '$' :: r => decide (r.takeWhile Char.isDigit ≠ [])
   | _ => false)
  ||
  (let dc := cs.takeWhile (fun c => c.isDigit || c = ',')
   decide (dc ≠ []) &&
     (let r2 := (cs.drop dc.length).dropWhile pyIsSpace
      ["users", "customers", "companies", "revenue", "growth"].any
        (fun w => w.toList.isPrefixOf r2)))

/-- A quote character of the author-byline pattern. -/
def quoteChar (c : Char) : Bool := c = '"' || c = '\''

/-- The alternatives `rel=["\x27]author["\x27]` and
`itemprop=["\x27]author["\x27]` of the byline pattern, anchored at one
position of the lowercased HTML. -/
def quotedAuthorAt (pre : String) (cs : List Char) : Bool :=
  match dropLit pre cs with
  | some (q :: r) =>
    quoteChar q && "author".toList.isPrefixOf r &&
      (match r.drop 6 with
       | q2 :: _ => quoteChar q2
       | [] => false)
  | _ => false

/-- The alternative `class=["\x27][^"\x27]*author[^"\x27]*["\x27]` of
the byline pattern, anchored at one position of the lowercased HTML. -/
def classAuthorAt (cs : List Char) : Bool :=
  match dropLit "class=" cs with
  | some (q :: r) =>
    quoteChar q &&
      (let seg := r.takeWhile (fun c => !quoteChar c)
       charsInfixOf "author".toList seg && decide (r.drop seg.length ≠ []))
  | _ => false

/-- The author-byline pattern of the GEO authority check
(`re.IGNORECASE`), anchored at one position of the lowercased HTML. -/
def bylineAt (cs : List Char) : Bool :=
  quotedAuthorAt "rel=" cs || classAuthorAt cs || quotedAuthorAt "itemprop=" cs

/-- One deduction of the GEO analyzer's `issue(...)` closure: the issue
record, the points, and the sub-dimension bucket the points are also
subtracted from. -/
structure GeoEvent where
  issue : Issue
  pts : ℤ
  key : GeoKey
  deriving Repr, DecidableEq

/-- One `issue(...)` call of the GEO analyzer. -/
def geoIssue (id sev title desc rec impact : String) (pts : ℤ) (key : GeoKey) :
    GeoEvent :=
  ⟨⟨id, "geo", sev, title, desc, rec, impact⟩, pts, key⟩

/-- The triggered deductions of one `_run_checks` run, in source order
(src/api/analyzers/geo.py lines 110-340). -/
def geoEvents (parsed : ParsedPage) (fetch_result : FetchResult) : List GeoEvent :=
  let word_count := parsed.word_count
  let body_text := parsed.body_text
  let robots_txt := orEmpty fetch_result.robots_txt
  let citable_count := _count_citable_passages parsed.paragraphs
  (if citable_count = 0 && word_count > 200 then
    [geoIssue "geo-no-citable-passages" "high" "No citable passages"
      "Zero paragraphs in the 50-200 word sweet spot for AI citations."
      "Structure content with 50-200 word paragraphs (optimal: 134-167 words)."
      "AI systems cannot extract clean citations" 12 .citability]
   else if citable_count < 3 && word_count > 500 then
    [geoIssue "geo-few-citable-passages" "medium" "Few citable passages"
      s!"Only {citable_count} passage(s) in the AI-citation sweet spot."
      "Break content into more 50-200 word paragraphs."
      "Limited citation opportunities" 6 .citability]
   else [])
  ++
  (let opening := if body_text ≠ "" then (body_text.take 500).toLower else ""
   let has_direct_answer := [" is ", " refers to ", " defined as ", " means ", " are "].any
     (fun pat => strContains opening pat)
   if !has_direct_answer && word_count > 200 then
    [geoIssue "geo-no-direct-answer" "medium" "No direct answer pattern"
      "Opening content doesn\x27t include direct definitions (e.g., \x27X is...\x27)."
      "Start with a clear definition. AI search prefers direct answers early."
      "Lower citation priority" 5 .citability]
   else [])
  ++
  (let has_statistics := scanAll statAt body_text.toList
   if !has_statistics && word_count > 200 then
    [geoIssue "geo-no-statistics" "low" "No data points or statistics"
      "No quantitative data found in body content."
      "Add specific numbers, percentages, or data points to strengthen citations."
      "Weaker citation authority" 4 .citability]
   else [])
  ++
  (let all_headings := parsed.h1 ++ parsed.h2 ++ parsed.h3 ++ parsed.h4
     ++ parsed.h5 ++ parsed.h6
   let question_headings := all_headings.filter (fun h =>
     (["what ", "how ", "why ", "when ", "where ", "which ", "who "].any
       (fun q => h.toLower.startsWith q)) || h.endsWith "?")
   if question_headings.isEmpty && word_count > 500 then
    [geoIssue "geo-no-question-headings" "medium" "No question-based headings"
      "No headings match AI query patterns (What, How, Why...)."
      "Add question-based H2/H3 headings that match how users ask AI."
      "Lower AI Overviews citation chance" 6 .structureKey]
   else [])
  ++
  (let has_h2 := !parsed.h2.isEmpty
   let has_h3 := !parsed.h3.isEmpty
   let has_h4 := !parsed.h4.isEmpty
   if (has_h3 && !has_h2) || (has_h4 && !has_h3) then
    [geoIssue "geo-broken-hierarchy" "medium" "Broken heading hierarchy"
      "Heading levels are skipped (e.g., H3 without H2)."
      "Maintain proper H1 → H2 → H3 hierarchy for AI parsing."
      "AI may misinterpret content structure" 5 .structureKey]
   else [])
  ++
  (let total_lists := parsed.lists_ul + parsed.lists_ol
   if total_lists = 0 && word_count > 300 then
    [geoIssue "geo-no-lists" "low" "No list elements"
      "No unordered or ordered lists found."
      "Use bullet/numbered lists. AI search frequently cites list content."
      "Missed featured snippet opportunity" 4 .structureKey]
   else [])
  ++
  (let avg_para_words := _avg_paragraph_words parsed.paragraphs
   let av := pyRound avg_para_words
   if avg_para_words > 100 && word_count > 300 then
    [geoIssue "geo-wall-of-text" "medium" "Wall of text detected"
      s!"Average paragraph length: {av} words."
      "Break into shorter paragraphs (50-100 words max)."
      "AI struggles to extract specific claims" 5 .structureKey]
   else [])
  ++
  (let image_count := parsed.images.length
   if image_count = 0 && word_count > 300 then
    [geoIssue "geo-no-images" "medium" "No images"
      "Page has no images despite substantial text content."
      "Add relevant images. Multi-modal pages rank higher in AI results."
      "Lower engagement and AI ranking signals" 8 .multiModal]
   else [])
  ++
  (if parsed.videos.length = 0 then
    [geoIssue "geo-no-video" "low" "No video content"
      "No video or video embeds detected."
      "Consider adding video. AI platforms increasingly surface video content."
      "Missing multi-modal signal" 4 .multiModal]
   else [])
  ++
  (let image_count := parsed.images.length
   let images_without_alt := (parsed.images.filter (fun img => optFalsy img.alt)).length
   if image_count > 0 &&
       ((images_without_alt : ℚ) / (image_count : ℚ)) > 1/2 then
    [geoIssue "geo-images-no-alt" "low" "Most images lack alt text"
      s!"{images_without_alt}/{image_count} images have no alt text."
      "Add descriptive alt text to all images for AI understanding."
      "AI cannot understand image content" 3 .multiModal]
   else [])
  ++
  (let has_person := parsed.schema.any (fun s =>
    s.isDict && (s.atType = .str "Person" || s.atType = .str "ProfilePage"))
   let has_byline := scanAll bylineAt fetch_result.html.toLower.toList
   if !has_person && !has_byline && word_count > 300 then
    [geoIssue "geo-no-author" "medium" "No author attribution"
      "No Person schema or author byline found."
      "Add author information with Person schema. AI values attributed content."
      "Weaker E-E-A-T signal for AI" 6 .authority]
   else [])
  ++
  (let has_dates := parsed.schema.any (fun s =>
    s.isDict && (s.datePublished || s.dateModified))
   if !has_dates && word_count > 300 then
    [geoIssue "geo-no-dates" "medium" "No publication dates"
      "No datePublished or dateModified in schema."
      "Add date metadata. AI search prioritizes fresh, dated content."
      "AI cannot determine content freshness" 5 .authority]
   else [])
  ++
  (let has_org := parsed.schema.any (fun s =>
    s.isDict && s.atType = .str "Organization")
   if !has_org then
    [geoIssue "geo-no-org-schema" "low" "No Organization schema"
      "No Organization structured data found."
      "Add Organization JSON-LD to establish brand authority."
      "Weaker brand signal for AI" 4 .authority]
   else [])
  ++
  (let el := parsed.linksExternal.length
   if el < 2 && word_count > 300 then
    [geoIssue "geo-no-source-citations" "low" "Few source citations"
      s!"Only {el} external link(s). AI values well-sourced content."
      "Add citations to authoritative sources."
      "Lower perceived trustworthiness" 3 .authority]
   else [])
  ++
  (let has_same_as := parsed.schema.any (fun s => s.isDict && s.sameAs)
   if !has_same_as then
    [geoIssue "geo-no-same-as" "low" "No sameAs in schema"
      "No sameAs property linking to social profiles."
      "Add sameAs URLs to Organization/Person schema."
      "Weaker entity recognition" 2 .authority]
   else [])
  ++
  (if _check_wildcard_block robots_txt then
    [geoIssue "geo-wildcard-block" "critical" "All bots blocked via wildcard"
      "robots.txt blocks all crawlers with \x27Disallow: /\x27. Site is invisible to AI search."
      "Remove the wildcard block or allow specific AI crawlers."
      "Completely invisible to AI search" 10 .technicalKey]
   else [])
  ++
  (let blocked_crawlers := AI_CRAWLERS.filter (fun c => _check_crawler_blocked robots_txt c)
   let key_blocked := blocked_crawlers.filter (fun c =>
     c = "GPTBot" || c = "ClaudeBot" || c = "PerplexityBot")
   if !key_blocked.isEmpty && !_check_wildcard_block robots_txt then
    let kb := String.intercalate ", " key_blocked
    [geoIssue "geo-crawlers-blocked" "high" "AI crawlers blocked"
      s!"Blocked in robots.txt: {kb}."
      "Allow GPTBot, ClaudeBot, PerplexityBot to crawl your site."
      "Invisible to major AI search engines" 8 .technicalKey]
   else [])
  ++
  (if optFalsy fetch_result.llms_txt then
    [geoIssue "geo-no-llms-txt" "medium" "No llms.txt file"
      "No /llms.txt found. This standard helps AI systems understand your site."
      "Create a /llms.txt file describing your site for AI systems."
      "Missed AI discoverability signal" 5 .technicalKey]
   else [])
  ++
  (let render_blocking := parsed.scripts.filter (fun s => !s.async && !s.defer)
   let rb := render_blocking.length
   if rb > 10 then
    [geoIssue "geo-js-dependent" "medium" "Heavy JavaScript dependency"
      s!"{rb} render-blocking scripts. AI crawlers may not execute JS."
      "Add async/defer to scripts. Ensure content is in initial HTML."
      "AI crawlers may see empty page" 5 .technicalKey]
   else [])

/-- The starting `sub_scores` dict: citability 25, structure 20,
multiModal 15, authority 20, technical 20. -/
def subScoresStart : SubScores := ⟨25, 20, 15, 20, 20⟩

/-- The starting value of one sub-dimension bucket. -/
def bucketStart (k : GeoKey) : ℤ := subScoresStart.get k

/-- One `issue(...)` ledger step of `_run_checks`: clamp the overall
score and the tagged bucket independently at 0. -/
def geoStep (st : ℤ × SubScores) (e : GeoEvent) : ℤ × SubScores :=
  (clampStep st.1 e.pts, st.2.set e.key (clampStep (st.2.get e.key) e.pts))

/-- The ledger fold of one `_run_checks` run. -/
def geoLedger (events : List GeoEvent) : ℤ × SubScores :=
  events.foldl geoStep (100, subScoresStart)

/-- The tuple returned by `_run_checks`. -/
structure GeoChecks where
  score : ℤ
  issues : List Issue
  sub_scores : SubScores
  citable_count : ℕ
  crawler_status : List (String × String)
  llms_status : String
  deriving Repr, DecidableEq

/-- `_run_checks(parsed, fetch_result)` (src/api/analyzers/geo.py). -/
def _run_checks (parsed : ParsedPage) (fetch_result : FetchResult) : GeoChecks :=
  let events := geoEvents parsed fetch_result
  let led := geoLedger events
  let robots_txt := orEmpty fetch_result.robots_txt
  let crawler_status := AI_CRAWLERS.map (fun crawler =>
    (crawler,
      if _check_wildcard_block robots_txt then "blocked"
      else if _check_crawler_blocked robots_txt crawler then "blocked"
      else "allowed"))
  let llms_status :=
    match fetch_result.llms_txt with
    | some l =>
      if l ≠ "" then (if (pyStrip l).length ≥ 50 then "present" else "thin")
      else "missing"
    | none => "missing"
  { score := led.1, issues := events.map GeoEvent.issue, sub_scores := led.2,
    citable_count := _count_citable_passages parsed.paragraphs,
    crawler_status := crawler_status, llms_status := llms_status }

/-- The sub-dimension iteration order (`for key in sub_scores`: dict
insertion order). -/
def geoKeyOrder : List GeoKey :=
  [.citability, .structureKey, .multiModal, .authority, .technicalKey]

/-- The display label of a sub-dimension in the competitor comparison. -/
def geoLabel : GeoKey → String
  | .citability => "Citability"
  | .structureKey => "Structure"
  | .multiModal => "Multi-Modal"
  | .authority => "Authority"
  | .technicalKey => "Technical AI Access"

/-- The advantage entry `f"{label} (+{diff})"` of the competitor diff. -/
def advEntry (diff : ℤ) (k : GeoKey) : String :=
  let lbl := geoLabel k
  s!"{lbl} (+{diff})"

/-- The gap entry `f"{label} ({diff})"` of the competitor diff. -/
def gapEntry (diff : ℤ) (k : GeoKey) : String :=
  let lbl := geoLabel k
  s!"{lbl} ({diff})"

/-- The GEO analyzer (`analyze`, src/api/analyzers/geo.py lines
363-424): deterministic checks, optional competitor re-run and diff,
provider enrichment (`ai_sim`) passed through verbatim. -/
def geo_analyze (parsed : ParsedPage) (fetch_result : FetchResult)
    (competitor_parsed : Option ParsedPage) (competitor_fetch : Option FetchResult)
    (ai_sim : Option AiSim) : Category :=
  let checks := _run_checks parsed fetch_result
  let score := checks.score
  let competitor_comparison : Option CompetitorComparison :=
    match competitor_parsed, competitor_fetch with
    | some cp, some cf =>
      let comp := _run_checks cp cf
      let advantages := geoKeyOrder.filterMap (fun k =>
        let diff := checks.sub_scores.get k - comp.sub_scores.get k
        if diff > 3 then some (advEntry diff k) else none)
      let gaps := geoKeyOrder.filterMap (fun k =>
        let diff := checks.sub_scores.get k - comp.sub_scores.get k
        if diff < -3 then some (gapEntry diff k) else none)
      some { competitorUrl := cf.final_url
             yourScore := max 0 score
             competitorScore := max 0 comp.score
             yourSubScores := checks.sub_scores
             competitorSubScores := comp.sub_scores
             advantages := advantages
             gaps := gaps
             competitorIssueCount := comp.issues.length }
    | _, _ => none
  let geo_details : GeoDetails :=
    { subScores := checks.sub_scores
      aiCrawlerStatus := checks.crawler_status
      llmsTxtStatus := checks.llms_status
      citablePassageCount := checks.citable_count
      aiSimulation := ai_sim }
  let fs := max 0 score
  let cc := checks.citable_count
  let allowedCount := (checks.crawler_status.filter (fun kv => kv.2 = "allowed")).length
  let totalCount := checks.crawler_status.length
  { name := "geo", label := "AI Search (GEO)", score := fs,
    weight := 0.20, issues := checks.issues,
    summary := s!"AI Search (GEO) score: {fs}/100. {cc} citable passages. {allowedCount}/{totalCount} AI crawlers allowed.",
    geoDetails := some geo_details,
    competitorComparison := competitor_comparison }

/-! ## HTML parser (src/api/parser.py) -/

/-- The facts that the BeautifulSoup extraction passes of `parse_html`
compute from the markup.  The DOM traversal itself is an external
concern (the spec treats the HTML parser as a collaborator); what is
modelled is the result-dict assembly: `parse_html` writes exactly the
keys of its `result` literal (src/api/parser.py lines 18-42) and never
writes a `paragraphs`, `lists` or `videos` key. -/
structure HtmlFacts where
  title : Option String := none
  meta_description : Option String := none
  meta_robots : Option String := none
  canonical : Option String := none
  viewport : Option String := none
  charset : Option String := none
  language : Option String := none
  h1 : List String := []
  h2 : List String := []
  h3 : List String := []
  h4 : List String := []
  h5 : List String := []
  h6 : List String := []
  images : List ImageTag := []
  linksInternal : List LinkTag := []
  linksExternal : List LinkTag := []
  scripts : List ScriptTag := []
  stylesheets : List String := []
  schema : List SchemaBlock := []
  open_graph : List (String × String) := []
  twitter_card : List (String × String) := []
  body_text_full : String := ""
  hreflang : List (String × Option String) := []
  deriving Repr, DecidableEq

/-- `parse_html` (src/api/parser.py): assemble the parsed-page dict.
The body text is capped at 15000 characters and the word count is the
number of `\b\w+\b` matches of the uncapped text; the `paragraphs`,
`lists` and `videos` keys are never written, so they hold the
analyzer-side `.get` defaults. -/
def parse_html (facts : HtmlFacts) : ParsedPage :=
  { title := facts.title
    meta_description := facts.meta_description
    meta_robots := facts.meta_robots
    canonical := facts.canonical
    viewport := facts.viewport
    charset := facts.charset
    language := facts.language
    h1 := facts.h1
    h2 := facts.h2
    h3 := facts.h3
    h4 := facts.h4
    h5 := facts.h5
    h6 := facts.h6
    images := facts.images
    linksInternal := facts.linksInternal
    linksExternal := facts.linksExternal
    scripts := facts.scripts
    stylesheets := facts.stylesheets
    schema := facts.schema
    open_graph := facts.open_graph
    twitter_card := facts.twitter_card
    word_count := (pyWords facts.body_text_full).length
    body_text := facts.body_text_full.take 15000
    hreflang := facts.hreflang
    paragraphs := []
    lists_ul := 0
    lists_ol := 0
    videos := [] }

/-! ## Orchestrator (src/api/engine.py) -/

/-- One `if on_progress: await on_progress(label, pct)` site: absent
callbacks are skipped, a raising callback propagates its exception
(there is no handler in `run_audit`). -/
def progressCall {σ ε : Type} (cb : Option (σ → String → ℤ → Except ε σ))
    (s : σ) (label : String) (pct : ℤ) : Except ε σ :=
  match cb with
  | none => Except.ok s
  | some f => f s label pct

/-- `run_audit(url, competitor_url, on_progress)` (src/api/engine.py).
The collaborators are explicit inputs: `fetch_page` is the network
snapshot, `parseF` the HTML parser, the seven analyzers are function
arguments (so a theorem quantifying over them shows whether they are
invoked), `eeatResp`/`aiSim` the provider responses, `duration_ms` and
`fetched_at` the impure clock readings.  The progress callback threads a
state `σ` and may raise `ε`. -/
def run_audit {σ ε : Type}
    (fetch_page : String → FetchResult)
    (parseF : String → String → ParsedPage)
    (technicalA : ParsedPage → FetchResult → Category)
    (contentA : ParsedPage → FetchResult → Category)
    (onpageA : ParsedPage → FetchResult → Category)
    (schemaA : ParsedPage → FetchResult → Category)
    (performanceA : ParsedPage → FetchResult → Category)
    (imagesA : ParsedPage → FetchResult → Category)
    (geoA : ParsedPage → FetchResult → Option ParsedPage → Option FetchResult → Category)
    (duration_ms : ℤ) (fetched_at : String)
    (url : String) (competitor_url : Option String)
    (on_progress : Option (σ → String → ℤ → Except ε σ)) (s₀ : σ) :
    Except ε (AuditResult × σ) := do
  let s₁ ← progressCall on_progress s₀ "Fetching page..." 5
  let fetch_result := fetch_page url
  match fetch_result.error with
  | some e =>
    return ({ error := some e, url := url, overallScore := 0,
              categories := [], topFixes := [] }, s₁)
  | none =>
    let comp : Option (ParsedPage × FetchResult) :=
      match competitor_url with
      | none => none
      | some cu =>
        let cf := fetch_page cu
        match cf.error with
        | some _ => none
        | none => some (parseF cf.html cf.final_url, cf)
    let s₂ ← progressCall on_progress s₁ "Parsing HTML..." 15
    let parsed := parseF fetch_result.html fetch_result.final_url
    let s₃ ← progressCall on_progress s₂ "Analyzing technical SEO..." 25
    let tech_result := technicalA parsed fetch_result
    let s₄ ← progressCall on_progress s₃ "Analyzing content quality (AI-powered)..." 35
    let content_result := contentA parsed fetch_result
    let s₅ ← progressCall on_progress s₄ "Analyzing on-page SEO..." 55
    let onpage_result := onpageA parsed fetch_result
    let s₆ ← progressCall on_progress s₅ "Analyzing structured data..." 65
    let schema_result := schemaA parsed fetch_result
    let s₇ ← progressCall on_progress s₆ "Analyzing performance..." 75
    let perf_result := performanceA parsed fetch_result
    let s₈ ← progressCall on_progress s₇ "Analyzing images..." 85
    let images_result := imagesA parsed fetch_result
    let s₉ ← progressCall on_progress s₈ "Analyzing AI search visibility..." 90
    let geo_result := geoA parsed fetch_result (comp.map Prod.fst) (comp.map Prod.snd)
    let s₁₀ ← progressCall on_progress s₉ "Generating report..." 95
    let categories := [tech_result, content_result, onpage_result, schema_result,
      perf_result, images_result, geo_result]
    let results := build_results categories fetch_result.final_url parsed.title
      parsed.meta_description duration_ms fetched_at
    let s₁₁ ← progressCall on_progress s₁₀ "Complete" 100
    return (results, s₁₁)

/-! ## Deduction non-negativity -/

theorem mem_ite_singleton {α} {c : Prop} [Decidable c] {x a : α}
    (h : a ∈ (if c then [x] else [])) : a = x := by
  split at h
  · simpa using h
  · simp at h

theorem mem_ite_nil_left {α} {c : Prop} [Decidable c] {x a : α}
    (h : a ∈ (if c then [] else [x])) : a = x := by
  split at h
  · simp at h
  · simpa using h

theorem mem_ite_chain2 {α} {c₁ c₂ : Prop} [Decidable c₁] [Decidable c₂] {x y a : α}
    (h : a ∈ (if c₁ then [x] else if c₂ then [y] else [])) : a = x ∨ a = y := by
  split at h
  · exact Or.inl (by simpa using h)
  · exact Or.inr (mem_ite_singleton h)

theorem mem_ite_chain3 {α} {c₁ c₂ c₃ : Prop} [Decidable c₁] [Decidable c₂]
    [Decidable c₃] {x y z a : α}
    (h : a ∈ (if c₁ then [x] else if c₂ then [y] else if c₃ then [z] else [])) :
    a = x ∨ a = y ∨ a = z := by
  split at h
  · exact Or.inl (by simpa using h)
  · exact Or.inr (mem_ite_chain2 h)

theorem pyRound_nonneg (q : ℚ) (hq : 0 ≤ q) : 0 ≤ pyRound q := by
  have hf : 0 ≤ ⌊q⌋ := Int.floor_nonneg.mpr hq
  unfold pyRound
  split_ifs <;> omega

theorem technicalEvents_nonneg (parsed : ParsedPage) (fetch_result : FetchResult) :
    ∀ d ∈ (technicalEvents parsed fetch_result).map Prod.snd, 0 ≤ d := by
  intro d hd
  simp only [List.mem_map] at hd
  obtain ⟨e, he, rfl⟩ := hd
  simp only [technicalEvents, List.mem_append, or_assoc] at he
  rcases he with he | he | he | he | he | he | he | he | he | he
  · rcases mem_ite_chain3 he with rfl | rfl | rfl <;> norm_num [techIssue]
  · rcases mem_ite_chain3 he with rfl | rfl | rfl <;> norm_num [techIssue]
  · obtain rfl := mem_ite_singleton he; norm_num [techIssue]
  · obtain rfl := mem_ite_singleton he; norm_num [techIssue]
  · obtain rfl := mem_ite_singleton he; norm_num [techIssue]
  · obtain rfl := mem_ite_singleton he; norm_num [techIssue]
  · simp only [List.mem_flatMap, SECURITY_HEADERS, List.mem_cons,
      List.mem_singleton, List.not_mem_nil, or_false] at he
    obtain ⟨h, hmem, he⟩ := he
    obtain rfl := mem_ite_nil_left he
    rcases hmem with rfl | rfl | rfl | rfl | rfl <;> norm_num [techIssue]
  · obtain rfl := mem_ite_singleton he; norm_num [techIssue]
  · obtain rfl := mem_ite_singleton he; norm_num [techIssue]
  · obtain rfl := mem_ite_singleton he; norm_num [techIssue]

theorem onpageEvents_nonneg (parsed : ParsedPage) (fetch_result : FetchResult) :
    ∀ d ∈ (onpageEvents parsed fetch_result).map Prod.snd, 0 ≤ d := by
  intro d hd
  simp only [List.mem_map] at hd
  obtain ⟨e, he, rfl⟩ := hd
  simp only [onpageEvents, List.mem_append, or_assoc] at he
  rcases he with he | he | he | he | he | he | he | he | he | he
  · rcases mem_ite_chain2 he with rfl | rfl <;> norm_num [onpageIssue]
  · obtain rfl := mem_ite_singleton he; norm_num [onpageIssue]
  · obtain rfl := mem_ite_singleton he; norm_num [onpageIssue]
  · rcases mem_ite_chain2 he with rfl | rfl <;> norm_num [onpageIssue]
  · obtain rfl := mem_ite_singleton he; norm_num [onpageIssue]
  · obtain rfl := mem_ite_singleton he; norm_num [onpageIssue]
  · obtain rfl := mem_ite_singleton he; norm_num [onpageIssue]
  · obtain rfl := mem_ite_singleton he; norm_num [onpageIssue]
  · obtain rfl := mem_ite_singleton he; norm_num [onpageIssue]
  · obtain rfl := mem_ite_singleton he; norm_num [onpageIssue]

theorem imagesEvents_nonneg (parsed : ParsedPage) :
    ∀ d ∈ (imagesEvents parsed).map Prod.snd, 0 ≤ d := by
  intro d hd
  simp only [List.mem_map] at hd
  obtain ⟨e, he, rfl⟩ := hd
  simp only [imagesEvents] at he
  split at he
  · simp at he
  · simp only [List.mem_append, or_assoc] at he
    rcases he with he | he | he | he | he | he
    · rcases mem_ite_chain2 he with rfl | rfl <;>
        · simp only [imagesIssue]
          omega
    · split at he
      · obtain rfl := by simpa using he
        norm_num [imagesIssue]
      · simp at he
    · obtain rfl := mem_ite_singleton he
      simp only [imagesIssue]
      have h0 : (0 : ℤ) ≤ pyRound
          ((((parsed.images.filter (fun img =>
              oldFormats.contains (pyExt img.src.toLower))).length : ℚ) /
            (parsed.images.length : ℚ)) * 10) := by
        apply pyRound_nonneg
        positivity
      omega
    · rcases mem_ite_chain2 he with rfl | rfl <;>
        · simp only [imagesIssue]
          omega
    · obtain rfl := mem_ite_singleton he
      simp only [imagesIssue]
      have h0 : (0 : ℤ) ≤ pyRound
          ((((parsed.images.drop 1).filter
              (fun img => img.loading ≠ some "lazy")).length : ℚ) / 2) := by
        apply pyRound_nonneg
        positivity
      omega
    · split at he
      · simp at he
      · simp only [List.mem_append] at he
        rcases he with he | he <;>
          · obtain rfl := mem_ite_singleton he
            norm_num [imagesIssue]

theorem performanceEvents_nonneg (parsed : ParsedPage) (fetch_result : FetchResult) :
    ∀ d ∈ (performanceEvents parsed fetch_result).map Prod.snd, 0 ≤ d := by
  intro d hd
  simp only [List.mem_map] at hd
  obtain ⟨e, he, rfl⟩ := hd
  simp only [performanceEvents, List.mem_append, or_assoc] at he
  rcases he with he | he | he | he | he | he | he
  · rcases mem_ite_chain2 he with rfl | rfl <;>
      · simp only [perfIssue]
        omega
  · obtain rfl := mem_ite_singleton he; norm_num [perfIssue]
  · obtain rfl := mem_ite_singleton he; norm_num [perfIssue]
  · split at he
    · obtain rfl := mem_ite_singleton he; norm_num [perfIssue]
    · simp at he
  · split at he
    · obtain rfl := by simpa using he
      norm_num [perfIssue]
    · simp at he
  · rcases mem_ite_chain2 he with rfl | rfl <;>
      · simp only [perfIssue]
        omega
  · obtain rfl := mem_ite_singleton he; norm_num [perfIssue]

theorem schemaEvents_nonneg (parsed : ParsedPage) :
    ∀ d ∈ (schemaEvents parsed).map Prod.snd, 0 ≤ d := by
  intro d hd
  simp only [List.mem_map] at hd
  obtain ⟨e, he, rfl⟩ := hd
  simp only [schemaEvents] at he
  split at he
  · obtain rfl := by simpa using he
    norm_num [schemaIssue]
  · simp only [List.mem_append, or_assoc] at he
    rcases he with he | he | he | he
    · simp only [List.mem_flatMap] at he
      obtain ⟨s, _, he⟩ := he
      split at he
      · simp at he
      · simp only [List.mem_append] at he
        rcases he with he | he
        · rcases mem_ite_chain2 he with rfl | rfl <;> norm_num [schemaIssue]
        · split at he
          · simp at he
          · simp only [List.mem_append, or_assoc] at he
            rcases he with he | he | he
            · split at he
              · obtain rfl := by simpa using he
                norm_num [schemaIssue]
              · simp at he
            · split at he
              · obtain rfl := by simpa using he
                norm_num [schemaIssue]
              · simp at he
            · split at he
              · split at he
                · obtain rfl := by simpa using he
                  norm_num [schemaIssue]
                · simp at he
              · simp at he
    · obtain rfl := mem_ite_singleton he; norm_num [schemaIssue]
    · obtain rfl := mem_ite_singleton he; norm_num [schemaIssue]
    · obtain rfl := mem_ite_singleton he; norm_num [schemaIssue]

theorem schemaDeductions_nonneg (parsed : ParsedPage) :
    ∀ d ∈ schemaDeductions parsed, 0 ≤ d := by
  intro d hd
  unfold schemaDeductions at hd
  simp only [List.mem_append] at hd
  rcases hd with hd | hd
  · exact schemaEvents_nonneg parsed d hd
  · split at hd
    · simp at hd
    · split at hd
      · obtain rfl := by simpa using hd
        norm_num
      · simp at hd

theorem contentEvents_nonneg (parsed : ParsedPage) (fetch_result : FetchResult)
    (eeatResp : Option EEAT) :
    ∀ d ∈ (contentEvents parsed fetch_result eeatResp).map Prod.snd, 0 ≤ d := by
  intro d hd
  simp only [List.mem_map] at hd
  obtain ⟨e, he, rfl⟩ := hd
  simp only [contentEvents, List.mem_append, or_assoc] at he
  rcases he with he | he | he | he | he
  · rcases mem_ite_chain2 he with rfl | rfl <;> norm_num [contentIssue]
  · split at he
    · rcases mem_ite_chain2 he with rfl | rfl <;> norm_num [contentIssue]
    · simp at he
  · obtain rfl := mem_ite_singleton he; norm_num [contentIssue]
  · obtain rfl := mem_ite_singleton he; norm_num [contentIssue]
  · split at he
    · simp at he
    · simp only [List.mem_append] at he
      rcases he with he | he <;>
        · rcases mem_ite_chain2 he with rfl | rfl <;> norm_num [contentIssue]

theorem geoEvents_nonneg (parsed : ParsedPage) (fetch_result : FetchResult) :
    ∀ e ∈ geoEvents parsed fetch_result, 0 ≤ e.pts := by
  intro e he
  simp only [geoEvents, List.mem_append, or_assoc] at he
  rcases he with he | he | he | he | he | he | he | he | he | he | he | he | he |
    he | he | he | he | he | he
  · rcases mem_ite_chain2 he with rfl | rfl <;> norm_num [geoIssue]
  all_goals
    obtain rfl := mem_ite_singleton he
  all_goals norm_num [geoIssue]

/-! ## C3: ledger invariants of every analyzer run -/

theorem ledger_foldl_nonneg :
    ∀ (ds : List ℤ) (start : ℤ), 0 ≤ start → 0 ≤ ds.foldl clampStep start := by
  intro ds
  induction ds with
  | nil => intro start hs; simpa using hs
  | cons d rest ih =>
    intro start _
    exact ih (clampStep start d) (clampStep_nonneg _ _)

theorem ledgerScore_nonneg (ds : List ℤ) : 0 ≤ ledgerScore ds :=
  ledger_foldl_nonneg ds 100 (by norm_num)

theorem trajectoryFrom_getLast? :
    ∀ (ds : List ℤ) (s : ℤ),
      (trajectoryFrom s ds).getLast? = some (ds.foldl clampStep s) := by
  intro ds
  induction ds with
  | nil => intro s; rfl
  | cons d rest ih =>
    intro s
    show (s :: trajectoryFrom (clampStep s d) rest).getLast? = _
    rw [List.getLast?_cons, ih (clampStep s d)]
    cases h : trajectoryFrom (clampStep s d) rest with
    | nil => simp [ih (clampStep s d), h] at *
    | cons a l => simp [List.getLast?_cons, ← h, ih (clampStep s d)]

/-- One analyzer run is well-behaved: every intermediate score of the
deduction ledger lies in `[0, 100]`, the scores never increase, each
step is the 0-clamped subtraction of the deduction, and the reported
category score is the final ledger state. -/
def runOk (ds : List ℤ) (reported : ℤ) : Prop :=
  trajectoryOk ds ∧ (scoreTrajectory ds).getLast? = some reported

theorem runOk_of_nonneg (ds : List ℤ) (h : ∀ d ∈ ds, 0 ≤ d) :
    runOk ds (max 0 (ledgerScore ds)) := by
  refine ⟨scoreTrajectory_ok ds h, ?_⟩
  unfold scoreTrajectory
  rw [trajectoryFrom_getLast?]
  have h0 := ledgerScore_nonneg ds
  have h1 : max 0 (ledgerScore ds) = ledgerScore ds := by omega
  rw [h1]
  rfl

theorem geoLedger_fst :
    ∀ (evs : List GeoEvent) (st : ℤ × SubScores),
      (evs.foldl geoStep st).1 = (evs.map GeoEvent.pts).foldl clampStep st.1 := by
  intro evs
  induction evs with
  | nil => intro st; rfl
  | cons e rest ih =>
    intro st
    show (rest.foldl geoStep (geoStep st e)).1 = _
    rw [ih (geoStep st e)]
    rfl

/-- C3: in every analyzer of the pipeline, for every input, the category
score starts at 100, is clamped at 0 after every individual deduction,
never leaves `[0, 100]` at any intermediate point, never increases, and
the reported category score is the final ledger state. -/
theorem analyzer_score_invariants (parsed : ParsedPage)
    (fetch_result : FetchResult) (eeatResp : Option EEAT) (aiSim : Option AiSim) :
    runOk ((technicalEvents parsed fetch_result).map Prod.snd)
      (technical_analyze parsed fetch_result).score
    ∧ runOk ((contentEvents parsed fetch_result eeatResp).map Prod.snd)
      (content_analyze parsed fetch_result eeatResp).score
    ∧ runOk ((onpageEvents parsed fetch_result).map Prod.snd)
      (onpage_analyze parsed fetch_result).score
    ∧ runOk (schemaDeductions parsed) (schema_analyze parsed fetch_result).score
    ∧ runOk ((performanceEvents parsed fetch_result).map Prod.snd)
      (performance_analyze parsed fetch_result).score
    ∧ runOk ((imagesEvents parsed).map Prod.snd)
      (images_analyze parsed fetch_result).score
    ∧ runOk ((geoEvents parsed fetch_result).map GeoEvent.pts)
      (geo_analyze parsed fetch_result none none aiSim).score := by
  refine ⟨?_, ?_, ?_, ?_, ?_, ?_, ?_⟩
  · exact runOk_of_nonneg _ (technicalEvents_nonneg parsed fetch_result)
  · exact runOk_of_nonneg _ (contentEvents_nonneg parsed fetch_result eeatResp)
  · exact runOk_of_nonneg _ (onpageEvents_nonneg parsed fetch_result)
  · have h : (schema_analyze parsed fetch_result).score =
        max 0 (ledgerScore (schemaDeductions parsed)) := by
      unfold schema_analyze
      split <;> rfl
    rw [h]
    exact runOk_of_nonneg _ (schemaDeductions_nonneg parsed)
  · exact runOk_of_nonneg _ (performanceEvents_nonneg parsed fetch_result)
  · have h : (images_analyze parsed fetch_result).score =
        max 0 (ledgerScore ((imagesEvents parsed).map Prod.snd)) := by
      rcases hi : parsed.images with _ | ⟨a, l⟩
      · have e2 : imagesEvents parsed = [] := by
          unfold imagesEvents; rw [hi]; rfl
        have e1 : (images_analyze parsed fetch_result).score = 100 := by
          unfold images_analyze; rw [hi]; rfl
        rw [e1, e2]
        norm_num [ledgerScore, clampStep]
      · unfold images_analyze imagesEvents
        rw [hi]
        rfl
    rw [h]
    exact runOk_of_nonneg _ (imagesEvents_nonneg parsed)
  · have h0 : (geo_analyze parsed fetch_result none none aiSim).score =
        max 0 (geoLedger (geoEvents parsed fetch_result)).1 := by
      simp only [geo_analyze, _run_checks]
    have h1 : (geoLedger (geoEvents parsed fetch_result)).1 =
        ledgerScore ((geoEvents parsed fetch_result).map GeoEvent.pts) := by
      unfold geoLedger
      rw [geoLedger_fst]
      rfl
    have h : (geo_analyze parsed fetch_result none none aiSim).score =
        max 0 (ledgerScore ((geoEvents parsed fetch_result).map GeoEvent.pts)) := by
      rw [h0, h1]
    rw [h]
    have hnn : ∀ d ∈ (geoEvents parsed fetch_result).map GeoEvent.pts, 0 ≤ d := by
      intro d hd
      simp only [List.mem_map] at hd
      obtain ⟨e, he, rfl⟩ := hd
      exact geoEvents_nonneg parsed fetch_result e he
    exact runOk_of_nonneg _ hnn

/-! ## C5: GEO deduction accounting -/

theorem SubScores.get_set (s : SubScores) (k k' : GeoKey) (v : ℤ) :
    (s.set k v).get k' = if k = k' then v else s.get k' := by
  cases k <;> cases k' <;> simp [SubScores.get, SubScores.set]

theorem geoLedger_get :
    ∀ (evs : List GeoEvent) (st : ℤ × SubScores) (k : GeoKey),
      (evs.foldl geoStep st).2.get k =
        ((evs.filter (fun e => e.key = k)).map GeoEvent.pts).foldl clampStep
          (st.2.get k) := by
  intro evs
  induction evs with
  | nil => intro st k; rfl
  | cons e rest ih =>
    intro st k
    show (rest.foldl geoStep (geoStep st e)).2.get k = _
    rw [ih (geoStep st e) k]
    by_cases hk : e.key = k
    · have hfil : (e :: rest).filter (fun x => x.key = k) =
          e :: rest.filter (fun x => x.key = k) := by
        simp [List.filter_cons, hk]
      rw [hfil, List.map_cons, List.foldl_cons]
      congr 1
      show (st.2.set e.key (clampStep (st.2.get e.key) e.pts)).get k =
        clampStep (st.2.get k) e.pts
      rw [SubScores.get_set, if_pos hk, hk]
    · have hfil : (e :: rest).filter (fun x => x.key = k) =
          rest.filter (fun x => x.key = k) := by
        simp [List.filter_cons, hk]
      rw [hfil]
      congr 1
      show (st.2.set e.key (clampStep (st.2.get e.key) e.pts)).get k = st.2.get k
      rw [SubScores.get_set, if_neg hk]

theorem geoEvents_key_sum (evs : List GeoEvent) :
    (geoKeyOrder.map (fun k =>
      ((evs.filter (fun e => e.key = k)).map GeoEvent.pts).sum)).sum =
      (evs.map GeoEvent.pts).sum := by
  induction evs with
  | nil => simp [geoKeyOrder]
  | cons e rest ih =>
    have hsplit : ∀ k : GeoKey,
        (((e :: rest).filter (fun x => x.key = k)).map GeoEvent.pts).sum =
          (if e.key = k then e.pts else 0) +
            ((rest.filter (fun x => x.key = k)).map GeoEvent.pts).sum := by
      intro k
      by_cases hk : e.key = k <;> simp [List.filter_cons, hk]
    simp only [hsplit, List.map_cons, List.sum_cons]
    rw [List.sum_map_add]
    rw [ih]
    have : (geoKeyOrder.map (fun k => if e.key = k then e.pts else 0)).sum = e.pts := by
      cases he : e.key <;> simp [geoKeyOrder, he]
    rw [this]

/-- C5: every GEO deduction is charged to the overall score and to
exactly one sub-dimension bucket: the final overall score is the clamp
of 100 minus the total deduction, each bucket is the clamp of its
starting value minus the deductions tagged to it, the five bucket
starting values sum to 100, and the per-bucket deduction totals
partition the total deduction. -/
theorem geo_bucket_accounting (parsed : ParsedPage) (fetch_result : FetchResult) :
    (_run_checks parsed fetch_result).score =
      max 0 (100 - ((geoEvents parsed fetch_result).map GeoEvent.pts).sum)
    ∧ (∀ k : GeoKey, (_run_checks parsed fetch_result).sub_scores.get k =
        max 0 (bucketStart k -
          (((geoEvents parsed fetch_result).filter (fun e => e.key = k)).map
            GeoEvent.pts).sum))
    ∧ (geoKeyOrder.map bucketStart).sum = 100
    ∧ (geoKeyOrder.map (fun k =>
        (((geoEvents parsed fetch_result).filter (fun e => e.key = k)).map
          GeoEvent.pts).sum)).sum =
        ((geoEvents parsed fetch_result).map GeoEvent.pts).sum := by
  have hnnE := geoEvents_nonneg parsed fetch_result
  have hnn : ∀ d ∈ (geoEvents parsed fetch_result).map GeoEvent.pts, 0 ≤ d := by
    intro d hd
    simp only [List.mem_map] at hd
    obtain ⟨e, he, rfl⟩ := hd
    exact hnnE e he
  refine ⟨?_, ?_, by norm_num [geoKeyOrder, bucketStart, subScoresStart, SubScores.get],
    geoEvents_key_sum _⟩
  · have h0 : (_run_checks parsed fetch_result).score =
        (geoLedger (geoEvents parsed fetch_result)).1 := by
      simp only [_run_checks]
    rw [h0]
    unfold geoLedger
    rw [geoLedger_fst]
    show List.foldl clampStep 100 _ = _
    rw [ledger_foldl_eq_clamp _ 100 (by norm_num) hnn]
  · intro k
    have h0 : (_run_checks parsed fetch_result).sub_scores.get k =
        (geoLedger (geoEvents parsed fetch_result)).2.get k := by
      simp only [_run_checks]
    rw [h0]
    unfold geoLedger
    rw [geoLedger_get]
    show List.foldl clampStep (bucketStart k) _ = _
    have hb : 0 ≤ bucketStart k := by
      cases k <;> norm_num [bucketStart, subScoresStart, SubScores.get]
    rw [ledger_foldl_eq_clamp _ (bucketStart k) hb]
    intro d hd
    simp only [List.mem_map, List.mem_filter] at hd
    obtain ⟨e, ⟨he, _⟩, rfl⟩ := hd
    exact hnnE e he

/-! ## C4: category weights and aggregator normalization -/

/-- The seven category results of one audit, in the fixed order of the
orchestrator's `categories` list (src/api/engine.py lines 104-112). -/
def engineCategories (parsed : ParsedPage) (fetch_result : FetchResult)
    (eeatResp : Option EEAT) (aiSim : Option AiSim)
    (competitor_parsed : Option ParsedPage)
    (competitor_fetch : Option FetchResult) : List Category :=
  [technical_analyze parsed fetch_result,
   content_analyze parsed fetch_result eeatResp,
   onpage_analyze parsed fetch_result,
   schema_analyze parsed fetch_result,
   performance_analyze parsed fetch_result,
   images_analyze parsed fetch_result,
   geo_analyze parsed fetch_result competitor_parsed competitor_fetch aiSim]

theorem engineCategories_weights (parsed : ParsedPage) (fetch_result : FetchResult)
    (eeatResp : Option EEAT) (aiSim : Option AiSim)
    (competitor_parsed : Option ParsedPage) (competitor_fetch : Option FetchResult) :
    (engineCategories parsed fetch_result eeatResp aiSim competitor_parsed
      competitor_fetch).map Category.weight =
      [0.25, 0.25, 0.20, 0.10, 0.10, 0.05, 0.20] := by
  have h1 : (technical_analyze parsed fetch_result).weight = 0.25 := rfl
  have h2 : (content_analyze parsed fetch_result eeatResp).weight = 0.25 := rfl
  have h3 : (onpage_analyze parsed fetch_result).weight = 0.20 := rfl
  have h4 : (schema_analyze parsed fetch_result).weight = 0.10 := by
    simp only [schema_analyze]
    split <;> rfl
  have h5 : (performance_analyze parsed fetch_result).weight = 0.10 := rfl
  have h6 : (images_analyze parsed fetch_result).weight = 0.05 := by
    rcases hi : parsed.images with _ | ⟨a, l⟩
    · unfold images_analyze; rw [hi]; rfl
    · unfold images_analyze; rw [hi]; rfl
  have h7 : (geo_analyze parsed fetch_result competitor_parsed competitor_fetch
      aiSim).weight = 0.20 := by
    simp only [geo_analyze]
  simp only [engineCategories, List.map_cons, List.map_nil, h1, h2, h3, h4, h5, h6, h7]

theorem engineCategories_weight_sum (parsed : ParsedPage) (fetch_result : FetchResult)
    (eeatResp : Option EEAT) (aiSim : Option AiSim)
    (competitor_parsed : Option ParsedPage) (competitor_fetch : Option FetchResult) :
    ((engineCategories parsed fetch_result eeatResp aiSim competitor_parsed
      competitor_fetch).map Category.weight).sum = 23/20 := by
  rw [engineCategories_weights]
  norm_num

theorem pyRound_le_int (q : ℚ) (n : ℤ) (h : q ≤ n) : pyRound q ≤ n := by
  have hfn : ⌊q⌋ ≤ n := by
    have := Int.floor_le_floor h
    rwa [Int.floor_intCast] at this
  have hfl : (⌊q⌋ : ℚ) ≤ q := Int.floor_le q
  unfold pyRound
  split_ifs with h1 h2 h3
  · exact hfn
  · have hlt : (⌊q⌋ : ℚ) < q := by linarith
    have : (⌊q⌋ : ℚ) < (n : ℚ) := lt_of_lt_of_le hlt h
    have : ⌊q⌋ < n := by exact_mod_cast this
    omega
  · exact hfn
  · have hlt : (⌊q⌋ : ℚ) < q := by
      have heq : q - ⌊q⌋ = 1/2 := le_antisymm (not_lt.mp h2) (not_lt.mp h1)
      linarith
    have : (⌊q⌋ : ℚ) < (n : ℚ) := lt_of_lt_of_le hlt h
    have : ⌊q⌋ < n := by exact_mod_cast this
    omega

/-- C4 counterexample: at a concrete audit input the weights of the
seven category results sum to 23/20 = 1.15, not 1.00 (the GEO analyzer
carries weight 0.20; the scorer docstring's 1.00 table still lists the
retired 5% ai-readiness analyzer). -/
theorem weights_sum_not_one :
    ((engineCategories {} {} none none none none).map Category.weight).sum = 23/20
    ∧ (23/20 : ℚ) ≠ 1 := by
  constructor
  · exact engineCategories_weight_sum {} {} none none none none
  · norm_num

/-- C4 amended: the seven audit category weights always sum to the
fixed constant 23/20 (1.15), and the aggregator tolerates any positive
weight set by dividing by the actual total: for positive weights and
scores within [0, 100] the overall score stays within [0, 100]. -/
theorem weights_sum_and_normalization :
    (∀ (parsed : ParsedPage) (fetch_result : FetchResult) (eeatResp : Option EEAT)
      (aiSim : Option AiSim) (competitor_parsed : Option ParsedPage)
      (competitor_fetch : Option FetchResult),
      ((engineCategories parsed fetch_result eeatResp aiSim competitor_parsed
        competitor_fetch).map Category.weight).sum = 23/20)
    ∧ ∀ (cats : List Category) (url : String) (title meta_description : Option String)
        (duration_ms : ℤ) (fetched_at : String),
        cats ≠ [] → (∀ c ∈ cats, 0 < c.weight) →
        (∀ c ∈ cats, 0 ≤ c.score ∧ c.score ≤ 100) →
        0 ≤ (build_results cats url title meta_description duration_ms
            fetched_at).overallScore ∧
          (build_results cats url title meta_description duration_ms
            fetched_at).overallScore ≤ 100 := by
  constructor
  · exact engineCategories_weight_sum
  · intro cats url title meta_description duration_ms fetched_at hne hpos hbound
    have hW : 0 < (cats.map Category.weight).sum := by
      apply List.sum_pos
      · intro x hx
        simp only [List.mem_map] at hx
        obtain ⟨c, hc, rfl⟩ := hx
        exact hpos c hc
      · simpa using hne
    have hS0 : 0 ≤ (cats.map (fun c => (c.score : ℚ) * c.weight)).sum := by
      apply List.sum_nonneg
      intro x hx
      simp only [List.mem_map] at hx
      obtain ⟨c, hc, rfl⟩ := hx
      have h1 := (hbound c hc).1
      have h2 := hpos c hc
      have : (0 : ℚ) ≤ (c.score : ℚ) := by exact_mod_cast h1
      positivity
    have hS1 : (cats.map (fun c => (c.score : ℚ) * c.weight)).sum ≤
        100 * (cats.map Category.weight).sum := by
      rw [← List.sum_map_mul_left]
      apply List.sum_le_sum
      intro c hc
      have h2 := (hbound c hc).2
      have h3 := hpos c hc
      have : (c.score : ℚ) ≤ 100 := by exact_mod_cast h2
      nlinarith
    have hover : (build_results cats url title meta_description duration_ms
        fetched_at).overallScore =
        pyRound ((cats.map (fun c => (c.score : ℚ) * c.weight)).sum /
          (cats.map Category.weight).sum) := by
      rw [overallScore_weighted_mean]
      rw [if_neg (by exact ne_of_gt hW)]
    rw [hover]
    constructor
    · apply pyRound_nonneg
      positivity
    · apply pyRound_le_int
      push_cast
      rw [div_le_iff₀ hW]
      linarith

/-- C4 witness: the normalization bound applied to a concrete two-
category set with weights 0.25 and 0.10. -/
theorem weights_sum_and_normalization_witness :
    0 ≤ (build_results
        [{ name := "a", label := "A", score := 80, weight := 1/4, issues := [],
           summary := "" },
         { name := "b", label := "B", score := 50, weight := 1/10, issues := [],
           summary := "" }] "" none none 0 "").overallScore
    ∧ (build_results
        [{ name := "a", label := "A", score := 80, weight := 1/4, issues := [],
           summary := "" },
         { name := "b", label := "B", score := 50, weight := 1/10, issues := [],
           summary := "" }] "" none none 0 "").overallScore ≤ 100 := by
  apply weights_sum_and_normalization.2
  · simp
  · intro c hc
    simp only [List.mem_cons, List.not_mem_nil, or_false] at hc
    rcases hc with rfl | rfl <;> norm_num
  · intro c hc
    simp only [List.mem_cons, List.not_mem_nil, or_false] at hc
    rcases hc with rfl | rfl <;> norm_num

/-! ## C6: wildcard robots block marks every crawler blocked -/

/-- C6: whenever the robots policy matches the wildcard disallow-all
rule, the per-crawler status map of the AI-Search analyzer marks every
crawler of the fixed roster "blocked", regardless of any per-crawler
rule. -/
theorem wildcard_blocks_every_crawler (parsed : ParsedPage)
    (fetch_result : FetchResult)
    (h : _check_wildcard_block (orEmpty fetch_result.robots_txt) = true) :
    (_run_checks parsed fetch_result).crawler_status =
      AI_CRAWLERS.map (fun crawler => (crawler, "blocked")) := by
  have h0 : (_run_checks parsed fetch_result).crawler_status =
      AI_CRAWLERS.map (fun crawler =>
        (crawler,
          if _check_wildcard_block (orEmpty fetch_result.robots_txt) then "blocked"
          else if _check_crawler_blocked (orEmpty fetch_result.robots_txt) crawler
            then "blocked"
          else "allowed")) := by
    simp only [_run_checks]
  rw [h0]
  simp [h]

/-- A fetch result whose robots policy is the bare wildcard block. -/
def wildcardFetch : FetchResult := { robots_txt := some "User-agent: *\nDisallow: /" }

/-- C6 witness: the policy `User-agent: *\nDisallow: /` has no
crawler-specific rule yet every rostered crawler is marked blocked. -/
theorem wildcard_blocks_every_crawler_witness :
    _check_wildcard_block (orEmpty wildcardFetch.robots_txt) = true
    ∧ (_run_checks {} wildcardFetch).crawler_status =
      AI_CRAWLERS.map (fun crawler => (crawler, "blocked")) := by
  refine ⟨by with_unfolding_all decide, ?_⟩
  exact wildcard_blocks_every_crawler {} wildcardFetch (by with_unfolding_all decide)

/-! ## C7: competitor diff thresholds -/

/-- The per-sub-dimension delta `ourSubScore - theirSubScore` of the
competitor comparison. -/
def subScoreDelta (parsed : ParsedPage) (fetch_result : FetchResult)
    (competitor_parsed : ParsedPage) (competitor_fetch : FetchResult)
    (k : GeoKey) : ℤ :=
  (_run_checks parsed fetch_result).sub_scores.get k -
    (_run_checks competitor_parsed competitor_fetch).sub_scores.get k

theorem filterMap_guard {α β : Type} (p : α → Prop) [DecidablePred p]
    (g : α → β) (l : List α) :
    l.filterMap (fun a => if p a then some (g a) else none) =
      (l.filter (fun a => decide (p a))).map g := by
  induction l with
  | nil => rfl
  | cons x xs ih =>
    by_cases hx : p x <;>
      simp [List.filterMap_cons, List.filter_cons, hx, ih]

theorem advEntry_head (d : ℤ) (k : GeoKey) :
    (advEntry d k).data.head? = (geoLabel k).data.head? := by
  cases k <;> rfl

theorem gapEntry_head (d : ℤ) (k : GeoKey) :
    (gapEntry d k).data.head? = (geoLabel k).data.head? := by
  cases k <;> rfl

theorem advEntry_key_eq {d₁ d₂ : ℤ} {k₁ k₂ : GeoKey}
    (h : advEntry d₁ k₁ = advEntry d₂ k₂) : k₁ = k₂ := by
  have hh := congrArg (fun s => s.data.head?) h
  simp only [advEntry_head] at hh
  cases k₁ <;> cases k₂ <;> first | rfl | exact absurd hh (by decide)

theorem gapEntry_key_eq {d₁ d₂ : ℤ} {k₁ k₂ : GeoKey}
    (h : gapEntry d₁ k₁ = gapEntry d₂ k₂) : k₁ = k₂ := by
  have hh := congrArg (fun s => s.data.head?) h
  simp only [gapEntry_head] at hh
  cases k₁ <;> cases k₂ <;> first | rfl | exact absurd hh (by decide)

/-- The competitor-comparison record that `geo_analyze` builds when a
competitor document is supplied (named for use in theorems). -/
def geoCompetitorRecord (parsed : ParsedPage) (fetch_result : FetchResult)
    (competitor_parsed : ParsedPage) (competitor_fetch : FetchResult) :
    CompetitorComparison :=
  { competitorUrl := competitor_fetch.final_url
    yourScore := max 0 (_run_checks parsed fetch_result).score
    competitorScore := max 0 (_run_checks competitor_parsed competitor_fetch).score
    yourSubScores := (_run_checks parsed fetch_result).sub_scores
    competitorSubScores := (_run_checks competitor_parsed competitor_fetch).sub_scores
    advantages := geoKeyOrder.filterMap (fun k =>
      if 3 < subScoreDelta parsed fetch_result competitor_parsed competitor_fetch k
      then some (advEntry
        (subScoreDelta parsed fetch_result competitor_parsed competitor_fetch k) k)
      else none)
    gaps := geoKeyOrder.filterMap (fun k =>
      if subScoreDelta parsed fetch_result competitor_parsed competitor_fetch k < -3
      then some (gapEntry
        (subScoreDelta parsed fetch_result competitor_parsed competitor_fetch k) k)
      else none)
    competitorIssueCount :=
      (_run_checks competitor_parsed competitor_fetch).issues.length }

/-- C7: with a competitor document supplied, the analyzer re-runs its
deterministic checks on the competitor, and per sub-dimension the delta
`ourSubScore - theirSubScore` puts the dimension in `advantages` exactly
when the delta exceeds 3, in `gaps` exactly when it is below -3, and in
neither list otherwise. -/
theorem competitor_diff_thresholds (parsed : ParsedPage)
    (fetch_result : FetchResult) (competitor_parsed : ParsedPage)
    (competitor_fetch : FetchResult) (aiSim : Option AiSim) :
    (geo_analyze parsed fetch_result (some competitor_parsed)
        (some competitor_fetch) aiSim).competitorComparison =
      some (geoCompetitorRecord parsed fetch_result competitor_parsed competitor_fetch)
    ∧ (geoCompetitorRecord parsed fetch_result competitor_parsed
        competitor_fetch).yourSubScores = (_run_checks parsed fetch_result).sub_scores
    ∧ (geoCompetitorRecord parsed fetch_result competitor_parsed
        competitor_fetch).competitorSubScores =
        (_run_checks competitor_parsed competitor_fetch).sub_scores
    ∧ (geoCompetitorRecord parsed fetch_result competitor_parsed
        competitor_fetch).competitorScore =
        max 0 (_run_checks competitor_parsed competitor_fetch).score
    ∧ (geoCompetitorRecord parsed fetch_result competitor_parsed
        competitor_fetch).advantages =
        (geoKeyOrder.filter (fun k => decide (3 <
          subScoreDelta parsed fetch_result competitor_parsed competitor_fetch k))).map
          (fun k => advEntry
            (subScoreDelta parsed fetch_result competitor_parsed competitor_fetch k) k)
    ∧ (geoCompetitorRecord parsed fetch_result competitor_parsed
        competitor_fetch).gaps =
        (geoKeyOrder.filter (fun k => decide (
          subScoreDelta parsed fetch_result competitor_parsed competitor_fetch k < -3))).map
          (fun k => gapEntry
            (subScoreDelta parsed fetch_result competitor_parsed competitor_fetch k) k)
    ∧ ∀ k ∈ geoKeyOrder,
        (advEntry (subScoreDelta parsed fetch_result competitor_parsed
            competitor_fetch k) k ∈
            (geoCompetitorRecord parsed fetch_result competitor_parsed
              competitor_fetch).advantages ↔
          3 < subScoreDelta parsed fetch_result competitor_parsed competitor_fetch k)
        ∧ (gapEntry (subScoreDelta parsed fetch_result competitor_parsed
            competitor_fetch k) k ∈
            (geoCompetitorRecord parsed fetch_result competitor_parsed
              competitor_fetch).gaps ↔
          subScoreDelta parsed fetch_result competitor_parsed competitor_fetch k < -3) := by
  have hadv : (geoCompetitorRecord parsed fetch_result competitor_parsed
      competitor_fetch).advantages =
      (geoKeyOrder.filter (fun k => decide (3 <
        subScoreDelta parsed fetch_result competitor_parsed competitor_fetch k))).map
        (fun k => advEntry
          (subScoreDelta parsed fetch_result competitor_parsed competitor_fetch k) k) := by
    simp only [geoCompetitorRecord]
    exact filterMap_guard _ _ _
  have hgap : (geoCompetitorRecord parsed fetch_result competitor_parsed
      competitor_fetch).gaps =
      (geoKeyOrder.filter (fun k => decide (
        subScoreDelta parsed fetch_result competitor_parsed competitor_fetch k < -3))).map
        (fun k => gapEntry
          (subScoreDelta parsed fetch_result competitor_parsed competitor_fetch k) k) := by
    simp only [geoCompetitorRecord]
    exact filterMap_guard _ _ _
  have hys : (geoCompetitorRecord parsed fetch_result competitor_parsed
      competitor_fetch).yourSubScores = (_run_checks parsed fetch_result).sub_scores := by
    simp only [geoCompetitorRecord]
  have hcs : (geoCompetitorRecord parsed fetch_result competitor_parsed
      competitor_fetch).competitorSubScores =
      (_run_checks competitor_parsed competitor_fetch).sub_scores := by
    simp only [geoCompetitorRecord]
  have hcsc : (geoCompetitorRecord parsed fetch_result competitor_parsed
      competitor_fetch).competitorScore =
      max 0 (_run_checks competitor_parsed competitor_fetch).score := by
    simp only [geoCompetitorRecord]
  refine ⟨by simp only [geo_analyze, geoCompetitorRecord, subScoreDelta],
    hys, hcs, hcsc, hadv, hgap, ?_⟩
  intro k hk
  constructor
  · rw [hadv]
    constructor
    · intro hmem
      simp only [List.mem_map, List.mem_filter, decide_eq_true_eq] at hmem
      obtain ⟨q, ⟨_, hq⟩, heq⟩ := hmem
      obtain rfl := advEntry_key_eq heq
      exact hq
    · intro hlt
      simp only [List.mem_map, List.mem_filter, decide_eq_true_eq]
      exact ⟨k, ⟨hk, hlt⟩, rfl⟩
  · rw [hgap]
    constructor
    · intro hmem
      simp only [List.mem_map, List.mem_filter, decide_eq_true_eq] at hmem
      obtain ⟨q, ⟨_, hq⟩, heq⟩ := hmem
      obtain rfl := gapEntry_key_eq heq
      exact hq
    · intro hlt
      simp only [List.mem_map, List.mem_filter, decide_eq_true_eq]
      exact ⟨k, ⟨hk, hlt⟩, rfl⟩

/-! ## C8: fetch error short-circuit -/

/-- C8: when the primary fetch reports a transport error, `run_audit`
short-circuits: for every parser and every choice of the seven
analyzers the result is the error `AuditResult` (error field set,
overall score 0, no categories, no top fixes) paired with the
unchanged callback state, so no analyzer influences the outcome. -/
theorem fetch_error_short_circuits {σ ε : Type}
    (fetch_page : String → FetchResult)
    (parseF : String → String → ParsedPage)
    (technicalA contentA onpageA schemaA performanceA imagesA :
      ParsedPage → FetchResult → Category)
    (geoA : ParsedPage → FetchResult → Option ParsedPage → Option FetchResult → Category)
    (duration_ms : ℤ) (fetched_at : String)
    (url : String) (competitor_url : Option String) (s₀ : σ)
    (e : String) (h : (fetch_page url).error = some e) :
    run_audit fetch_page parseF technicalA contentA onpageA schemaA
        performanceA imagesA geoA duration_ms fetched_at url competitor_url
        none s₀ =
      (Except.ok ({ error := some e, url := url, overallScore := 0,
                    categories := [], topFixes := [] }, s₀) :
        Except ε (AuditResult × σ)) := by
  simp [run_audit, progressCall, h]

/-- A fetch snapshot whose every request fails with a connection error. -/
def failFetchPage : String → FetchResult :=
  fun _ => { error := some "Connection refused" }

theorem fetch_error_short_circuits_witness :
    (failFetchPage "https://example.test").error = some "Connection refused" ∧
    run_audit failFetchPage (fun _ _ => parse_html {}) technical_analyze
        (fun p f => content_analyze p f none) onpage_analyze schema_analyze
        performance_analyze images_analyze
        (fun p f cp cf => geo_analyze p f cp cf none)
        0 "" "https://example.test" none
        (none : Option (Unit → String → ℤ → Except Unit Unit)) () =
      Except.ok ({ error := some "Connection refused", url := "https://example.test",
                   overallScore := 0, categories := [], topFixes := [] }, ()) :=
  ⟨rfl, fetch_error_short_circuits failFetchPage (fun _ _ => parse_html {})
    technical_analyze (fun p f => content_analyze p f none) onpage_analyze
    schema_analyze performance_analyze images_analyze
    (fun p f cp cf => geo_analyze p f cp cf none) 0 "" "https://example.test"
    none () "Connection refused" rfl⟩

/-! ## C9: progress callback and audit outcome -/

/-- A fetch snapshot where every request succeeds with an empty page. -/
def okFetchPage : String → FetchResult := fun u => { final_url := u }

/-- A progress callback that always raises. -/
def raisingCb : Unit → String → ℤ → Except Unit Unit := fun _ _ _ => Except.error ()

/-- C9 counterexample: `run_audit` awaits the progress callback with no
exception handler, so a raising callback aborts the audit: on the same
inputs the audit with an always-raising callback returns an exception
while the audit with no callback succeeds, refuting "callback failures
must not affect the audit outcome". -/
theorem raising_callback_aborts_audit :
    run_audit okFetchPage (fun _ _ => parse_html {}) technical_analyze
        (fun p f => content_analyze p f none) onpage_analyze schema_analyze
        performance_analyze images_analyze
        (fun p f cp cf => geo_analyze p f cp cf none)
        0 "" "https://example.test" none (some raisingCb) () =
      Except.error ()
    ∧ (run_audit okFetchPage (fun _ _ => parse_html {}) technical_analyze
        (fun p f => content_analyze p f none) onpage_analyze schema_analyze
        performance_analyze images_analyze
        (fun p f cp cf => geo_analyze p f cp cf none)
        0 "" "https://example.test" none
        (none : Option (Unit → String → ℤ → Except Unit Unit)) ()).isOk = true :=
  ⟨rfl, rfl⟩

theorem exceptBind_ok {ε α β : Type} (a : α) (f : α → Except ε β) :
    (Except.ok a >>= f) = f a := rfl

theorem exceptMap_ok {ε α β : Type} (f : α → β) (a : α) :
    Except.map f (Except.ok a : Except ε α) = Except.ok (f a) := rfl

/-- C9 (amended): a successful (never-raising) progress callback does not
affect the audit outcome - lifting any total callback yields the same
`AuditResult` as running with no callback at all - and the percentages
passed to the callback are strictly increasing.  (The original claim is
refuted by `raising_callback_aborts_audit`: `run_audit` has no handler
around the callback, so a raising callback aborts the audit.) -/
theorem progress_callback_transparent {σ ε : Type}
    (fetch_page : String → FetchResult)
    (parseF : String → String → ParsedPage)
    (technicalA contentA onpageA schemaA performanceA imagesA :
      ParsedPage → FetchResult → Category)
    (geoA : ParsedPage → FetchResult → Option ParsedPage → Option FetchResult → Category)
    (duration_ms : ℤ) (fetched_at : String)
    (url : String) (competitor_url : Option String)
    (cb : σ → String → ℤ → σ) (s₀ : σ) (r : AuditResult) (l : List ℤ)
    (hrec : run_audit fetch_page parseF technicalA contentA onpageA schemaA
        performanceA imagesA geoA duration_ms fetched_at url competitor_url
        (some (fun acc _ p => (Except.ok (acc ++ [p]) : Except ε (List ℤ)))) [] =
      Except.ok (r, l)) :
    Except.map Prod.fst (run_audit fetch_page parseF technicalA contentA onpageA
        schemaA performanceA imagesA geoA duration_ms fetched_at url competitor_url
        (some (fun s lab p => (Except.ok (cb s lab p) : Except ε σ))) s₀) =
      Except.map Prod.fst (run_audit fetch_page parseF technicalA contentA onpageA
        schemaA performanceA imagesA geoA duration_ms fetched_at url competitor_url
        (none : Option (σ → String → ℤ → Except ε σ)) s₀)
    ∧ List.Chain' (fun a b => a < b) l := by
  rcases h : (fetch_page url).error with _ | e
  · refine ⟨by simp [run_audit, progressCall, h, exceptBind_ok, exceptMap_ok], ?_⟩
    simp [run_audit, progressCall, h, exceptBind_ok] at hrec
    obtain ⟨-, rfl⟩ := hrec
    norm_num [List.chain'_cons, List.chain'_singleton]
  · refine ⟨by simp [run_audit, progressCall, h, exceptBind_ok, exceptMap_ok], ?_⟩
    simp [run_audit, progressCall, h, exceptBind_ok] at hrec
    obtain ⟨-, rfl⟩ := hrec
    norm_num [List.chain'_cons, List.chain'_singleton]

theorem progress_callback_transparent_witness :
    run_audit failFetchPage (fun _ _ => parse_html {}) technical_analyze
        (fun p f => content_analyze p f none) onpage_analyze schema_analyze
        performance_analyze images_analyze
        (fun p f cp cf => geo_analyze p f cp cf none) 0 "" "https://example.test" none
        (some (fun acc _ p => (Except.ok (acc ++ [p]) : Except Unit (List ℤ)))) [] =
      Except.ok ({ error := some "Connection refused", url := "https://example.test",
                   overallScore := 0, categories := [], topFixes := [] }, [(5 : ℤ)])
    ∧ (Except.map Prod.fst (run_audit failFetchPage (fun _ _ => parse_html {})
          technical_analyze (fun p f => content_analyze p f none) onpage_analyze
          schema_analyze performance_analyze images_analyze
          (fun p f cp cf => geo_analyze p f cp cf none) 0 "" "https://example.test"
          none (some (fun s lab p =>
            (Except.ok ((fun (s : Unit) (_ : String) (_ : ℤ) => s) s lab p) :
              Except Unit Unit))) ()) =
        Except.map Prod.fst (run_audit failFetchPage (fun _ _ => parse_html {})
          technical_analyze (fun p f => content_analyze p f none) onpage_analyze
          schema_analyze performance_analyze images_analyze
          (fun p f cp cf => geo_analyze p f cp cf none) 0 "" "https://example.test"
          none (none : Option (Unit → String → ℤ → Except Unit Unit)) ())
      ∧ List.Chain' (fun a b => a < b) [(5 : ℤ)]) :=
  ⟨rfl, progress_callback_transparent failFetchPage (fun _ _ => parse_html {})
    technical_analyze (fun p f => content_analyze p f none) onpage_analyze
    schema_analyze performance_analyze images_analyze
    (fun p f cp cf => geo_analyze p f cp cf none) 0 "" "https://example.test" none
    (fun (s : Unit) (_ : String) (_ : ℤ) => s) () _ [(5 : ℤ)] rfl⟩

/-! ## C10: parser never emits paragraphs -/

theorem geoIssue_id (id sev title desc rec impact : String) (pts : ℤ) (key : GeoKey) :
    (geoIssue id sev title desc rec impact pts key).issue.id = id := rfl

theorem count_citable_nil : _count_citable_passages [] = 0 := rfl

theorem avg_paragraph_nil : _avg_paragraph_words [] = 0 := rfl

/-- C10: `parse_html` never writes the `paragraphs` key, so the GEO
analyzer always sees zero citable passages and a zero average paragraph
length; for every parsed page with more than 200 words the high-severity
"geo-no-citable-passages" issue (12-point citability deduction) is
emitted, and "geo-few-citable-passages" and "geo-wall-of-text" are
never emitted. -/
theorem parser_omits_paragraphs_citability (facts : HtmlFacts)
    (fetch_result : FetchResult) :
    (parse_html facts).paragraphs = []
    ∧ _count_citable_passages (parse_html facts).paragraphs = 0
    ∧ _avg_paragraph_words (parse_html facts).paragraphs = 0
    ∧ (_run_checks (parse_html facts) fetch_result).citable_count = 0
    ∧ (200 < (parse_html facts).word_count →
        geoIssue "geo-no-citable-passages" "high" "No citable passages"
          "Zero paragraphs in the 50-200 word sweet spot for AI citations."
          "Structure content with 50-200 word paragraphs (optimal: 134-167 words)."
          "AI systems cannot extract clean citations" 12 .citability
          ∈ geoEvents (parse_html facts) fetch_result
        ∧ (geoIssue "geo-no-citable-passages" "high" "No citable passages"
            "Zero paragraphs in the 50-200 word sweet spot for AI citations."
            "Structure content with 50-200 word paragraphs (optimal: 134-167 words)."
            "AI systems cannot extract clean citations" 12 .citability).issue
          ∈ (_run_checks (parse_html facts) fetch_result).issues)
    ∧ ∀ e ∈ geoEvents (parse_html facts) fetch_result,
        e.issue.id ≠ "geo-few-citable-passages" ∧ e.issue.id ≠ "geo-wall-of-text" := by
  have hpar : (parse_html facts).paragraphs = [] := rfl
  refine ⟨hpar, rfl, by rw [hpar]; exact avg_paragraph_nil, rfl, ?_, ?_⟩
  · intro hwc
    have hmem : geoIssue "geo-no-citable-passages" "high" "No citable passages"
        "Zero paragraphs in the 50-200 word sweet spot for AI citations."
        "Structure content with 50-200 word paragraphs (optimal: 134-167 words)."
        "AI systems cannot extract clean citations" 12 .citability
        ∈ geoEvents (parse_html facts) fetch_result := by
      simp only [geoEvents, List.mem_append, or_assoc]
      left
      rw [if_pos]
      · exact List.mem_singleton_self _
      · simp [hpar, count_citable_nil, hwc]
    refine ⟨hmem, ?_⟩
    simp only [_run_checks]
    exact List.mem_map_of_mem GeoEvent.issue hmem
  · intro e he
    simp only [geoEvents, List.mem_append, or_assoc, hpar, count_citable_nil,
      avg_paragraph_nil] at he
    rcases he with he | he | he | he | he | he | he | he | he | he | he | he | he |
      he | he | he | he | he | he
    · split at he
      case isTrue h1 =>
        obtain rfl := List.mem_singleton.mp he
        exact ⟨by rw [geoIssue_id]; with_unfolding_all decide,
          by rw [geoIssue_id]; with_unfolding_all decide⟩
      case isFalse h1 =>
        split at he
        case isTrue h2 =>
          exfalso
          simp only [Bool.and_eq_true, decide_eq_true_eq] at h1 h2
          exact h1 ⟨by trivial, by omega⟩
        case isFalse h2 => simp at he
    · obtain rfl := mem_ite_singleton he
      exact ⟨by rw [geoIssue_id]; with_unfolding_all decide,
        by rw [geoIssue_id]; with_unfolding_all decide⟩
    · obtain rfl := mem_ite_singleton he
      exact ⟨by rw [geoIssue_id]; with_unfolding_all decide,
        by rw [geoIssue_id]; with_unfolding_all decide⟩
    · obtain rfl := mem_ite_singleton he
      exact ⟨by rw [geoIssue_id]; with_unfolding_all decide,
        by rw [geoIssue_id]; with_unfolding_all decide⟩
    · obtain rfl := mem_ite_singleton he
      exact ⟨by rw [geoIssue_id]; with_unfolding_all decide,
        by rw [geoIssue_id]; with_unfolding_all decide⟩
    · obtain rfl := mem_ite_singleton he
      exact ⟨by rw [geoIssue_id]; with_unfolding_all decide,
        by rw [geoIssue_id]; with_unfolding_all decide⟩
    · split at he
      case isTrue h1 =>
        exfalso
        simp only [Bool.and_eq_true, decide_eq_true_eq] at h1
        have := h1.1
        norm_num at this
      case isFalse h1 => simp at he
    · obtain rfl := mem_ite_singleton he
      exact ⟨by rw [geoIssue_id]; with_unfolding_all decide,
        by rw [geoIssue_id]; with_unfolding_all decide⟩
    · obtain rfl := mem_ite_singleton he
      exact ⟨by rw [geoIssue_id]; with_unfolding_all decide,
        by rw [geoIssue_id]; with_unfolding_all decide⟩
    · obtain rfl := mem_ite_singleton he
      exact ⟨by rw [geoIssue_id]; with_unfolding_all decide,
        by rw [geoIssue_id]; with_unfolding_all decide⟩
    · obtain rfl := mem_ite_singleton he
      exact ⟨by rw [geoIssue_id]; with_unfolding_all decide,
        by rw [geoIssue_id]; with_unfolding_all decide⟩
    · obtain rfl := mem_ite_singleton he
      exact ⟨by rw [geoIssue_id]; with_unfolding_all decide,
        by rw [geoIssue_id]; with_unfolding_all decide⟩
    · obtain rfl := mem_ite_singleton he
      exact ⟨by rw [geoIssue_id]; with_unfolding_all decide,
        by rw [geoIssue_id]; with_unfolding_all decide⟩
    · obtain rfl := mem_ite_singleton he
      exact ⟨by rw [geoIssue_id]; with_unfolding_all decide,
        by rw [geoIssue_id]; with_unfolding_all decide⟩
    · obtain rfl := mem_ite_singleton he
      exact ⟨by rw [geoIssue_id]; with_unfolding_all decide,
        by rw [geoIssue_id]; with_unfolding_all decide⟩
    · obtain rfl := mem_ite_singleton he
      exact ⟨by rw [geoIssue_id]; with_unfolding_all decide,
        by rw [geoIssue_id]; with_unfolding_all decide⟩
    · obtain rfl := mem_ite_singleton he
      exact ⟨by rw [geoIssue_id]; with_unfolding_all decide,
        by rw [geoIssue_id]; with_unfolding_all decide⟩
    · obtain rfl := mem_ite_singleton he
      exact ⟨by rw [geoIssue_id]; with_unfolding_all decide,
        by rw [geoIssue_id]; with_unfolding_all decide⟩
    · obtain rfl := mem_ite_singleton he
      exact ⟨by rw [geoIssue_id]; with_unfolding_all decide,
        by rw [geoIssue_id]; with_unfolding_all decide⟩
